import Mathlib

/-!
Verification development for the agent-based epidemic simulator core
(agent data model, interaction kernels, disease progression, hospital
state machine, infection resolver).  The definitions below are shallow
embeddings of the C++ kernels: each per-agent loop body becomes a pure
Lean function over explicit agent state; machine reals (ParticleReal)
are modelled as rationals, integer SoA attributes as integers, and RNG
draws as explicit inputs.
-/

set_option linter.unusedVariables false

/-! ### Enumerations (AgentDefinitions.H) -/

namespace Status
def never : ℤ := 0
def infected : ℤ := 1
def immune : ℤ := 2
def susceptible : ℤ := 3
def dead : ℤ := 4
end Status

namespace SymptomStatus
def presymptomatic : ℤ := 0
def symptomatic : ℤ := 1
def asymptomatic : ℤ := 2
end SymptomStatus

namespace SchoolType
def noSchool : ℤ := 0
def college : ℤ := 1
def high : ℤ := 2
def middle : ℤ := 3
def elem : ℤ := 4
def daycare : ℤ := 5
end SchoolType

namespace AgeGroups
def u5 : ℤ := 0
def a5to17 : ℤ := 1
def a18to29 : ℤ := 2
def a30to49 : ℤ := 3
def a50to64 : ℤ := 4
def o65 : ℤ := 5
end AgeGroups

namespace AgeGroupsHosp
def u50 : ℤ := 0
def a50to64 : ℤ := 1
def o65 : ℤ := 2
end AgeGroupsHosp

namespace DiseaseStats
def hospitalization : ℤ := 0
def ICU : ℤ := 1
def ventilator : ℤ := 2
def death : ℤ := 3
end DiseaseStats

/-! ### Agent data model -/

/-- Integer SoA attributes of one agent (IntIdx), plus the dense community
index that `GetCommunityIndex` computes from the agent's current cell. -/
structure Agent where
  age_group : ℤ := 2
  family : ℤ := 0
  home_i : ℤ := 0
  home_j : ℤ := 0
  work_i : ℤ := 0
  work_j : ℤ := 0
  hosp_i : ℤ := -1
  hosp_j : ℤ := -1
  nborhood : ℤ := 0
  school_grade : ℤ := 0
  school_id : ℤ := 0
  school_closed : ℤ := 0
  naics : ℤ := 0
  workgroup : ℤ := 0
  work_nborhood : ℤ := 0
  withdrawn : ℤ := 0
  random_travel : ℤ := -1
  air_travel : ℤ := -1
  community : ℤ := 0
deriving Repr, DecidableEq

/-- Per-disease runtime attributes of one agent (IntIdxDisease and
RealIdxDisease). -/
structure DiseaseState where
  status : ℤ := 0
  symptomatic : ℤ := 0
  treatment_timer : ℚ := 0
  disease_counter : ℚ := 0
  prob : ℚ := 1
  latent_period : ℚ := 0
  infectious_period : ℚ := 0
  incubation_period : ℚ := 0
deriving Repr, DecidableEq

/-- An agent together with its runtime state for one fixed disease; the
interaction kernels operate on lists of these (one tile, one disease). -/
structure AgentD where
  a : Agent
  ds : DiseaseState
deriving Repr, DecidableEq

/-- Disease parameter block (DiseaseParm).  Age- and school-type-indexed
arrays are modelled as total functions on ℤ. -/
structure DiseaseParm where
  xmit_comm : ℤ → ℚ
  xmit_hood : ℤ → ℚ
  xmit_hh_adult : ℤ → ℚ
  xmit_hh_child : ℤ → ℚ
  xmit_nc_adult : ℤ → ℚ
  xmit_nc_child : ℤ → ℚ
  xmit_school : ℤ → ℚ
  xmit_school_a2c : ℤ → ℚ
  xmit_school_c2a : ℤ → ℚ
  xmit_work : ℚ
  p_asymp : ℚ
  vac_eff : ℚ
  m_t_hosp : ℤ → ℚ
  m_t_hosp_offset : ℚ
  m_CHR : ℤ → ℚ
  m_CIC : ℤ → ℚ
  m_CVE : ℤ → ℚ
  m_hospToDeath : ℤ → ℤ → ℚ

/-! ### Predicates (AgentDefinitions.H) -/

def inHospital (x : Agent) : Bool :=
  decide (0 ≤ x.hosp_i) && decide (0 ≤ x.hosp_j)

def isAnAdult (x : Agent) : Bool :=
  decide (AgeGroups.a5to17 < x.age_group)

def isInfectious (ds : DiseaseState) : Bool :=
  decide (ds.status = Status.infected) && decide (ds.latent_period ≤ ds.disease_counter)

def notInfectiousButInfected (ds : DiseaseState) : Bool :=
  decide (ds.status = Status.infected) && decide (ds.disease_counter ≤ ds.latent_period)

def isSusceptible (ds : DiseaseState) : Bool :=
  decide (ds.status ≠ Status.immune) && decide (ds.status ≠ Status.dead) &&
    decide (ds.status ≠ Status.infected)

def getSchoolType (grade : ℤ) : ℤ :=
  if grade = 0 then SchoolType.daycare
  else if (1 ≤ grade ∧ grade ≤ 7) ∨ (15 ≤ grade ∧ grade ≤ 21) then SchoolType.elem
  else if (8 ≤ grade ∧ grade ≤ 10) ∨ (22 ≤ grade ∧ grade ≤ 24) then SchoolType.middle
  else if (11 ≤ grade ∧ grade ≤ 14) ∨ (25 ≤ grade ∧ grade ≤ 28) then SchoolType.high
  else if 29 ≤ grade then SchoolType.college
  else SchoolType.noSchool

/-! ### Shelter-in-place (AgentContainer::shelterStart / shelterStop) -/

/-- Per-agent body of AgentContainer::shelterStart: with draw `r` below the
compliance the withdrawn flag is set to 1, otherwise it keeps its value. -/
def shelterStartAgent (compliance r : ℚ) (withdrawn : ℤ) : ℤ :=
  if r < compliance then 1 else withdrawn

/-- Per-agent body of AgentContainer::shelterStop: clears the withdrawn flag. -/
def shelterStopAgent (withdrawn : ℤ) : ℤ := 0

/-! ### Commute movement (AgentContainer::moveAgentsToWork / moveAgentsToHome,
census initialization branch) -/

structure Pos where
  x : ℚ
  y : ℚ
deriving Repr, DecidableEq

/-- Per-agent body of AgentContainer::moveAgentsToWork (census branch). -/
def moveAgentsToWorkPos (dx0 dx1 : ℚ) (a : Agent) (p : Pos) : Pos :=
  if inHospital a then p
  else ⟨(a.work_i + 1/2) * dx0, (a.work_j + 1/2) * dx1⟩

/-- Per-agent body of AgentContainer::moveAgentsToHome (census branch). -/
def moveAgentsToHomePos (dx0 dx1 : ℚ) (a : Agent) (p : Pos) : Pos :=
  if inHospital a then p
  else ⟨(a.home_i + 1/2) * dx0, (a.home_j + 1/2) * dx1⟩

/-! ### Infection resolver (setInfected, AgentContainer::infectAgents) -/

/-- The body of setInfected (DiseaseParm.H): the three period draws `gL`,
`gI`, `gC` are the Gamma samples, clamped at 0, with the incubation period
floored down to latent + infectious when it exceeds them. -/
def setInfected (ds : DiseaseState) (gL gI gC : ℚ) : DiseaseState :=
  { ds with status := Status.infected, disease_counter := 0,
            latent_period := if gL < 0 then 0 else gL,
            infectious_period := if gI < 0 then 0 else gI,
            incubation_period :=
              if (if gI < 0 then 0 else gI) + (if gL < 0 then 0 else gL) <
                  (if gC < 0 then 0 else gC) then
                ((⌊(if gI < 0 then 0 else gI) + (if gL < 0 then 0 else gL)⌋ : ℤ) : ℚ)
              else if gC < 0 then 0 else gC }

/-- Per-agent, per-disease body of AgentContainer::infectAgents: prob is
replaced by 1 - prob, and a never/susceptible agent is infected when the
uniform draw `r` falls below it. -/
def infectAgentsStep (ds0 : DiseaseState) (r gL gI gC : ℚ) : DiseaseState :=
  let p := 1 - ds0.prob
  let ds := { ds0 with prob := p }
  if (ds.status = Status.never ∨ ds.status = Status.susceptible) ∧ r < p then
    setInfected ds gL gI gC
  else ds

/-! ### Interaction kernels (fast path, the compiled one: FAST_INTERACTIONS).
Each kernel is embedded as (a) the candidate predicate, (b) the counts the
tally pass accumulates (countP over the tile's agents), and (c) the
susceptible-pass probability update as a function of the current prob. -/

/-- HomeCandidate (InteractionModHome.H). -/
def HomeCandidate (x : Agent) : Bool :=
  !(inHospital x) && decide (x.random_travel < 0) && decide (x.air_travel < 0)

/-- HomeNborhoodCandidate (InteractionModHomeNborhood.H): random travellers
are allowed to interact here. -/
def HomeNborhoodCandidate (x : Agent) : Bool :=
  !(inHospital x) && decide (x.withdrawn = 0)

/-- WorkCandidate (InteractionModWork.H). -/
def WorkCandidate (x : Agent) : Bool :=
  !(inHospital x) && decide (0 ≤ x.work_i) && decide (0 < x.workgroup) &&
    decide (x.withdrawn = 0) && decide (x.air_travel < 0) && decide (x.random_travel < 0)

/-- WorkNborhoodCandidate (InteractionModWorkNborhood.H). -/
def WorkNborhoodCandidate (x : Agent) : Bool :=
  !(inHospital x) && decide (x.withdrawn = 0) && decide (x.random_travel < 0)

/-- SchoolCandidate (InteractionModSchool.H). -/
def SchoolCandidate (x : Agent) : Bool :=
  !(inHospital x) && decide (0 < x.school_id) && decide (x.school_closed = 0) &&
    decide (x.withdrawn = 0) && decide (x.air_travel < 0) && decide (x.random_travel < 0)

/-! #### Home kernel (InteractionModHome::fastInteractHome) -/

/-- FAMILIES_PER_CLUSTER-division of a family id; C++ integer division
truncates toward zero. -/
def clusterOf (family : ℤ) : ℤ := Int.tdiv family 4

/-- Tally of infectious home candidates of the pass's transmitter class in one
(community, family) group. -/
def infectedFamily (adults : Bool) (L : List AgentD) (c f : ℤ) : ℕ :=
  L.countP (fun y => isInfectious y.ds && HomeCandidate y.a && (isAnAdult y.a == adults) &&
    decide (y.a.community = c) && decide (y.a.family = f))

/-- Same tally restricted to not-withdrawn agents. -/
def infectedFamilyNotWithdrawn (adults : Bool) (L : List AgentD) (c f : ℤ) : ℕ :=
  L.countP (fun y => isInfectious y.ds && HomeCandidate y.a && (isAnAdult y.a == adults) &&
    decide (y.a.community = c) && decide (y.a.family = f) && decide (y.a.withdrawn = 0))

/-- Tally of not-withdrawn infectious home candidates in one
(community, nborhood, cluster) group. -/
def infectedNeighborCluster (adults : Bool) (L : List AgentD) (c nb cl : ℤ) : ℕ :=
  L.countP (fun y => isInfectious y.ds && HomeCandidate y.a && (isAnAdult y.a == adults) &&
    decide (y.a.community = c) && decide (y.a.nborhood = nb) &&
    decide (clusterOf y.a.family = cl) && decide (y.a.withdrawn = 0))

/-- The signed cluster exponent as the code computes it:
infected_nc minus num_infected_family_not_withdrawn (as machine ints). -/
def homeClusterExponent (adults : Bool) (L : List AgentD) (x : AgentD) : ℤ :=
  (infectedNeighborCluster adults L x.a.community x.a.nborhood (clusterOf x.a.family) : ℤ) -
    (infectedFamilyNotWithdrawn adults L x.a.community x.a.family : ℤ)

/-- One transmitter-class pass of the susceptible loop in fastInteractHome,
updating the survival accumulator `p`. -/
def fastInteractHomePass (adults : Bool) (parm : DiseaseParm) (L : List AgentD)
    (x : AgentD) (p : ℚ) : ℚ :=
  if isSusceptible x.ds && HomeCandidate x.a then
    let scale : ℚ := 1
    let infect : ℚ := 1 - parm.vac_eff
    let xmit_family : ℚ := if adults then parm.xmit_hh_adult x.a.age_group
      else parm.xmit_hh_child x.a.age_group
    let xmit_nc : ℚ := if adults then parm.xmit_nc_adult x.a.age_group
      else parm.xmit_nc_child x.a.age_group
    let num_family := infectedFamily adults L x.a.community x.a.family
    let family_prob : ℚ := 1 - infect * xmit_family * scale
    let p1 := p * family_prob ^ num_family
    if x.a.withdrawn = 0 then
      let nc_prob : ℚ := 1 - infect * xmit_nc * scale
      p1 * nc_prob ^ (homeClusterExponent adults L x).toNat
    else p1
  else p

/-- Full home kernel for one disease: the adult transmitter pass followed by
the child transmitter pass. -/
def fastInteractHomeProb (parm : DiseaseParm) (L : List AgentD) (x : AgentD) (p : ℚ) : ℚ :=
  fastInteractHomePass false parm L x (fastInteractHomePass true parm L x p)

/-! #### Home-neighborhood kernel (InteractionModHomeNborhood::fastInteractHomeNborhood) -/

def infectedCommunityHN (L : List AgentD) (c : ℤ) : ℕ :=
  L.countP (fun y => isInfectious y.ds && HomeNborhoodCandidate y.a && decide (y.a.community = c))

def infectedNborhoodHN (L : List AgentD) (c nb : ℤ) : ℕ :=
  L.countP (fun y => isInfectious y.ds && HomeNborhoodCandidate y.a &&
    decide (y.a.community = c) && decide (y.a.nborhood = nb))

def fastInteractHomeNborhoodProb (parm : DiseaseParm) (L : List AgentD)
    (x : AgentD) (p : ℚ) : ℚ :=
  if isSusceptible x.ds && HomeNborhoodCandidate x.a then
    let scale : ℚ := 1
    let infect : ℚ := 1 - parm.vac_eff
    let num_nborhood := infectedNborhoodHN L x.a.community x.a.nborhood
    let num_community := infectedCommunityHN L x.a.community
    let comm_prob : ℚ := 1 - infect * parm.xmit_comm x.a.age_group * scale
    let nborhood_prob : ℚ := 1 - infect * parm.xmit_hood x.a.age_group * scale
    p * comm_prob ^ (num_community - num_nborhood) * nborhood_prob ^ num_nborhood
  else p

/-! #### Work kernel (InteractionModWork::fastInteractWork) -/

def infectedWorkgroup (L : List AgentD) (c wg na : ℤ) : ℕ :=
  L.countP (fun y => isInfectious y.ds && WorkCandidate y.a && decide (y.a.community = c) &&
    decide (y.a.workgroup = wg) && decide (y.a.naics = na))

def fastInteractWorkProb (parm : DiseaseParm) (L : List AgentD) (x : AgentD) (p : ℚ) : ℚ :=
  if isSusceptible x.ds && WorkCandidate x.a then
    let scale : ℚ := 1
    let infect : ℚ := 1 - parm.vac_eff
    let k := infectedWorkgroup L x.a.community x.a.workgroup x.a.naics
    let workgroup_prob : ℚ := 1 - infect * parm.xmit_work * scale
    p * workgroup_prob ^ k
  else p

/-! #### Work-neighborhood kernel (InteractionModWorkNborhood::fastInteractWorkNborhood).
The tally and the exposure lookup both use the work_nborhood attribute for
every agent (the code comment: always use work nborhood, because even age
group 0 could be in another nborhood during the day for daycare). -/

def infectedCommunityWN (L : List AgentD) (c : ℤ) : ℕ :=
  L.countP (fun y => isInfectious y.ds && WorkNborhoodCandidate y.a && decide (y.a.community = c))

def infectedNborhoodWN (L : List AgentD) (c nb : ℤ) : ℕ :=
  L.countP (fun y => isInfectious y.ds && WorkNborhoodCandidate y.a &&
    decide (y.a.community = c) && decide (y.a.work_nborhood = nb))

/-- The same-neighborhood exposure count the kernel reads for a susceptible
agent: keyed by the agent's own work_nborhood. -/
def kernelSameNborCountWN (L : List AgentD) (x : AgentD) : ℕ :=
  infectedNborhoodWN L x.a.community x.a.work_nborhood

def fastInteractWorkNborhoodProb (parm : DiseaseParm) (L : List AgentD)
    (x : AgentD) (p : ℚ) : ℚ :=
  if isSusceptible x.ds && WorkNborhoodCandidate x.a then
    let scale : ℚ := 1
    let infect : ℚ := 1 - parm.vac_eff
    let num_nborhood := kernelSameNborCountWN L x
    let num_community := infectedCommunityWN L x.a.community
    let comm_prob : ℚ := 1 - infect * parm.xmit_comm x.a.age_group * scale
    let nborhood_prob : ℚ := 1 - infect * parm.xmit_hood x.a.age_group * scale
    p * comm_prob ^ (num_community - num_nborhood) * nborhood_prob ^ num_nborhood
  else p

/-- Modelled from the spec: the spec sentence for the work variant says the
same-neighborhood group is work_nborhood for adults and the home nborhood for
children (under-5 and 5-17); this definition follows the spec words, to be
compared against the kernel. -/
def specWorkNborhoodOf (x : Agent) : ℤ :=
  if AgeGroups.a5to17 < x.age_group then x.work_nborhood else x.nborhood

/-- Modelled from the spec: the same-neighborhood exposure count the claim
asserts the kernel computes (group of the age-dependent neighborhood). -/
def specSameNborCountWN (L : List AgentD) (x : AgentD) : ℕ :=
  L.countP (fun y => isInfectious y.ds && WorkNborhoodCandidate y.a &&
    decide (y.a.community = x.a.community) &&
    decide (specWorkNborhoodOf y.a = specWorkNborhoodOf x.a))

/-! #### School kernel (InteractionModSchool::fastInteractSchool) -/

def infectedSchool (daycare : Bool) (adults : Bool) (L : List AgentD)
    (c sid grade : ℤ) : ℕ :=
  L.countP (fun y => isInfectious y.ds && SchoolCandidate y.a && (isAnAdult y.a == adults) &&
    decide (y.a.community = c) && decide (y.a.school_id = sid) &&
    decide (y.a.school_grade = grade) &&
    (decide (getSchoolType y.a.school_grade = SchoolType.daycare) == daycare))

/-- One transmitter-class pass of the susceptible loop in fastInteractSchool. -/
def fastInteractSchoolPass (adults : Bool) (parm : DiseaseParm) (L : List AgentD)
    (x : AgentD) (p : ℚ) : ℚ :=
  if isSusceptible x.ds && SchoolCandidate x.a then
    let scale : ℚ := 1
    let infect : ℚ := 1 - parm.vac_eff
    if getSchoolType x.a.school_grade = SchoolType.daycare then
      let k := infectedSchool true adults L x.a.community x.a.school_id x.a.school_grade
      let daycare_prob : ℚ := 1 - infect * parm.xmit_school SchoolType.daycare * scale
      p * daycare_prob ^ k
    else
      let k := infectedSchool false adults L x.a.community x.a.school_id x.a.school_grade
      let t := getSchoolType x.a.school_grade
      let xmit : ℚ :=
        if adults then
          if x.a.age_group ≤ AgeGroups.a5to17 then parm.xmit_school_a2c t
          else parm.xmit_school t
        else
          if x.a.age_group ≤ AgeGroups.a5to17 then parm.xmit_school t
          else parm.xmit_school_c2a t
      let school_prob : ℚ := 1 - infect * xmit * scale
      p * school_prob ^ k
  else p

/-- Full school kernel for one disease: adult pass then child pass. -/
def fastInteractSchoolProb (parm : DiseaseParm) (L : List AgentD) (x : AgentD) (p : ℚ) : ℚ :=
  fastInteractSchoolPass false parm L x (fastInteractSchoolPass true parm L x p)

/-! ### Disease progression (DiseaseStatus::updateAgents, DiseaseParm::check_hospitalization) -/

/-- check_hospitalization (DiseaseParm.H): returns (treatment timer, ICU mark,
ventilator mark) from the three draws. -/
def check_hospitalization (parm : DiseaseParm) (age : ℤ) (rCHR rCIC rCVE : ℚ) :
    ℚ × ℤ × ℤ :=
  if rCHR < parm.m_CHR age then
    let t0 : ℚ :=
      if age = AgeGroups.o65 then parm.m_t_hosp AgeGroupsHosp.o65
      else if age = AgeGroups.a50to64 then parm.m_t_hosp AgeGroupsHosp.a50to64
      else parm.m_t_hosp AgeGroupsHosp.u50
    if rCIC < parm.m_CIC age then
      if rCVE < parm.m_CVE age then (t0 + 2 * parm.m_t_hosp_offset, 1, 1)
      else (t0 + parm.m_t_hosp_offset, 1, 0)
    else (t0, 0, 0)
  else (0, 0, 0)

/-- Output of one per-agent, per-disease progression step. -/
structure ProgressOut where
  ds : DiseaseState
  withdrawn : ℤ
  markedHosp : ℤ
  markedICU : ℤ
  markedVent : ℤ
deriving Repr, DecidableEq

/-- Per-agent, per-disease body of DiseaseStatus::updateAgents.  `swc` is the
symptomatic-withdraw compliance; the draws are the asymptomatic coin, the
withdraw coin, the three hospitalization coins and the immune-length Gamma
sample. -/
def updateAgentsStep (parm : DiseaseParm) (swc : ℚ) (a : Agent) (w : ℤ)
    (ds0 : DiseaseState) (rAsymp rWithdraw rCHR rCIC rCVE gImmune : ℚ) : ProgressOut :=
  let ds := { ds0 with prob := 1 }
  if ds.status = Status.never ∨ ds.status = Status.susceptible then
    ⟨ds, w, 0, 0, 0⟩
  else if ds.status = Status.immune then
    let c := ds.disease_counter - 1
    if c < 0 then
      ⟨{ ds with disease_counter := 0, treatment_timer := 0,
                 status := Status.susceptible }, w, 0, 0, 0⟩
    else ⟨{ ds with disease_counter := c }, w, 0, 0, 0⟩
  else if ds.status = Status.infected then
    let c := ds.disease_counter + 1
    let ds1 := { ds with disease_counter := c }
    if c = 1 then
      if rAsymp < parm.p_asymp then
        ⟨{ ds1 with symptomatic := SymptomStatus.asymptomatic }, w, 0, 0, 0⟩
      else
        ⟨{ ds1 with symptomatic := SymptomStatus.presymptomatic }, w, 0, 0, 0⟩
    else if c = ((⌊ds1.incubation_period⌋ : ℤ) : ℚ) then
      if ds1.symptomatic = SymptomStatus.presymptomatic then
        let w2 : ℤ := if 0 < swc ∧ rWithdraw < swc then 1 else w
        let tiv := check_hospitalization parm a.age_group rCHR rCIC rCVE
        let markedH : ℤ := if 0 < tiv.1 then 1 else 0
        ⟨{ ds1 with symptomatic := SymptomStatus.symptomatic, treatment_timer := tiv.1 },
          w2, markedH, tiv.2.1, tiv.2.2⟩
      else ⟨ds1, w, 0, 0, 0⟩
    else if !(inHospital a) then
      if ds1.latent_period + ds1.infectious_period ≤ c then
        ⟨{ ds1 with status := Status.immune, disease_counter := gImmune,
                    symptomatic := SymptomStatus.presymptomatic }, 0, 0, 0, 0⟩
      else ⟨ds1, w, 0, 0, 0⟩
    else ⟨ds1, w, 0, 0, 0⟩
  else ⟨ds, w, 0, 0, 0⟩

/-! ### Hospital model (HospitalModel::treatAgents) -/

/-- Output of one per-agent, per-disease treatment step, including the
per-agent flag_status cell and which hospToDeath row (if any) the outcome
draw consulted. -/
structure TreatOut where
  ds : DiseaseState
  withdrawn : ℤ
  alive : Bool
  flag : ℤ
  usedRow : Option ℤ
deriving Repr, DecidableEq

/-- The flag_status update of the countdown branch: the decremented timer `t`
is tested in order against 0, t_hosp_offset and 2 * t_hosp_offset; when no
boundary is hit the incoming flag value is kept (as in the source, where the
per-agent flag cell is only overwritten at a boundary). -/
def treatFlag (parm : DiseaseParm) (flagIn : ℤ) (t : ℚ) : ℤ :=
  if t = 0 then DiseaseStats.hospitalization + 1
  else if t = parm.m_t_hosp_offset then DiseaseStats.ICU + 1
  else if t = 2 * parm.m_t_hosp_offset then DiseaseStats.ventilator + 1
  else flagIn

/-- Per-agent body of the per-disease loop of HospitalModel::treatAgents.
`flagIn` is the value of the per-agent flag_status cell on entry to this
disease's pass (0 at the start of the day), `rOutcome` the outcome draw and
`gImmune` the immune-length Gamma sample. -/
def treatAgentsStep (parm : DiseaseParm) (a : Agent) (w : ℤ) (alive : Bool)
    (flagIn : ℤ) (ds : DiseaseState) (rOutcome gImmune : ℚ) : TreatOut :=
  if !(inHospital a) then ⟨ds, w, alive, flagIn, none⟩
  else if ds.disease_counter = ((⌊ds.incubation_period⌋ : ℤ) : ℚ) then
    ⟨ds, w, alive, flagIn, none⟩
  else if ds.treatment_timer = 0 then ⟨ds, w, alive, flagIn, none⟩
  else if alive = false then ⟨ds, w, alive, flagIn, none⟩
  else
    let t := ds.treatment_timer - 1
    let flag : ℤ := treatFlag parm flagIn t
    if 0 < flag then
      if rOutcome < parm.m_hospToDeath (flag - 1) a.age_group then
        ⟨{ ds with treatment_timer := t, status := Status.dead }, w, false, -flag,
          some (flag - 1)⟩
      else
        ⟨{ ds with treatment_timer := 0, status := Status.immune,
                   disease_counter := gImmune,
                   symptomatic := SymptomStatus.presymptomatic }, 0, alive, flag,
          some (flag - 1)⟩
    else ⟨{ ds with treatment_timer := t }, w, alive, flag, none⟩

/-- Result of chaining the per-disease treatment passes for one agent. -/
structure TreatFoldOut where
  dss : List DiseaseState
  withdrawn : ℤ
  alive : Bool
  flag : ℤ
deriving Repr, DecidableEq

/-- The for-d loop of HospitalModel::treatAgents for one agent: each item
carries the disease's parameters, runtime state and two draws; the withdrawn
flag, the is_alive cell and the flag_status cell are threaded through. -/
def treatDiseases (a : Agent) (w : ℤ) (alive : Bool) (flag : ℤ) :
    List (DiseaseParm × DiseaseState × ℚ × ℚ) → TreatFoldOut
  | [] => ⟨[], w, alive, flag⟩
  | item :: rest =>
      let o := treatAgentsStep item.1 a w alive flag item.2.1 item.2.2.1 item.2.2.2
      let r := treatDiseases a o.withdrawn o.alive o.flag rest
      ⟨o.ds :: r.dss, r.withdrawn, r.alive, r.flag⟩

/-- Final per-agent state after HospitalModel::treatAgents. -/
structure TreatFinal where
  dss : List DiseaseState
  hosp_i : ℤ
  hosp_j : ℤ
  withdrawn : ℤ
  alive : Bool
  flag : ℤ
deriving Repr, DecidableEq

/-- The death-propagation / discharge pass of HospitalModel::treatAgents
(the second ParallelFor): only hospitalized agents are touched; a dead agent
gets every disease status set to dead and leaves the hospital, an alive agent
whose timers all reached 0 is discharged (its position moves home, not
modelled here). -/
def hospitalResolve (a : Agent) (f : TreatFoldOut) : TreatFinal :=
  if !(inHospital a) then ⟨f.dss, a.hosp_i, a.hosp_j, f.withdrawn, f.alive, f.flag⟩
  else if f.alive = false then
    ⟨f.dss.map (fun ds => { ds with status := Status.dead }), -1, -1, 0, f.alive, f.flag⟩
  else if (f.dss.map (fun ds => ds.treatment_timer)).sum = 0 then
    ⟨f.dss, -1, -1, 0, f.alive, f.flag⟩
  else ⟨f.dss, a.hosp_i, a.hosp_j, f.withdrawn, f.alive, f.flag⟩

/-- Whole per-agent pipeline of HospitalModel::treatAgents: is_alive is
initialized from the first disease's status, the per-disease passes run in
order, then the propagation / discharge pass. -/
def treatAgentsAgent (a : Agent) (w : ℤ)
    (items : List (DiseaseParm × DiseaseState × ℚ × ℚ)) : TreatFinal :=
  let alive0 : Bool :=
    match items.head? with
    | some item => decide (item.2.1.status ≠ Status.dead)
    | none => true
  hospitalResolve a (treatDiseases a w alive0 0 items)

/-- Per-community statistics deltas of the final loop of
HospitalModel::treatAgents, as a function of the agent's flag_status value:
a death adds one death, and each phase-boundary crossing (encoded in the
absolute value of the flag) subtracts one from the corresponding counter. -/
structure StatsDelta where
  death : ℤ
  hosp : ℤ
  icu : ℤ
  vent : ℤ
deriving Repr, DecidableEq

def hospStatsDelta (flag : ℤ) : StatsDelta :=
  { death := if flag < 0 then 1 else 0
  , hosp := if DiseaseStats.hospitalization < |flag| then -1 else 0
  , icu := if DiseaseStats.ICU < |flag| then -1 else 0
  , vent := if DiseaseStats.ventilator < |flag| then -1 else 0 }

/-! ### Status totals (AgentContainer::getTotals) -/

/-- The nine per-agent contributions of getTotals. -/
structure StatusCounts where
  cNever : ℤ
  cInfected : ℤ
  cImmune : ℤ
  cSusceptible : ℤ
  cDead : ℤ
  cExposed : ℤ
  cAsymp : ℤ
  cPresymp : ℤ
  cSymp : ℤ
deriving Repr, DecidableEq

/-- Per-agent body of the getTotals reduction; none models the failed range
assertion on status and the abort on an out-of-range symptomatic value. -/
def getTotalsContrib (ds : DiseaseState) : Option StatusCounts :=
  if 0 ≤ ds.status ∧ ds.status ≤ 4 then
    let base : StatusCounts :=
      { cNever := if ds.status = Status.never then 1 else 0
      , cInfected := if ds.status = Status.infected then 1 else 0
      , cImmune := if ds.status = Status.immune then 1 else 0
      , cSusceptible := if ds.status = Status.susceptible then 1 else 0
      , cDead := if ds.status = Status.dead then 1 else 0
      , cExposed := 0, cAsymp := 0, cPresymp := 0, cSymp := 0 }
    if ds.status = Status.infected then
      if notInfectiousButInfected ds then some { base with cExposed := 1 }
      else if ds.symptomatic = SymptomStatus.asymptomatic then some { base with cAsymp := 1 }
      else if ds.symptomatic = SymptomStatus.presymptomatic then some { base with cPresymp := 1 }
      else if ds.symptomatic = SymptomStatus.symptomatic then some { base with cSymp := 1 }
      else none
    else some base
  else none

def addCounts (u v : StatusCounts) : StatusCounts :=
  ⟨u.cNever + v.cNever, u.cInfected + v.cInfected, u.cImmune + v.cImmune,
   u.cSusceptible + v.cSusceptible, u.cDead + v.cDead, u.cExposed + v.cExposed,
   u.cAsymp + v.cAsymp, u.cPresymp + v.cPresymp, u.cSymp + v.cSymp⟩

/-- getTotals over a population for one disease: the sum of the per-agent
contributions (none if any agent trips an assertion). -/
def getTotals : List DiseaseState → Option StatusCounts
  | [] => some ⟨0, 0, 0, 0, 0, 0, 0, 0, 0⟩
  | ds :: rest => (getTotalsContrib ds).bind fun c => (getTotals rest).map (addCounts c)

/-! ### Day-level probability chain and parameter bounds (used for the prob
invariant): the scheduler order within a day is work, school, work_nborhood
(interactDay), then home, home_nborhood (interactNight). -/

def dayProbs (parm : DiseaseParm) (L1 L2 L3 L4 L5 : List AgentD)
    (x1 x2 x3 x4 x5 : AgentD) : ℚ × ℚ × ℚ × ℚ × ℚ :=
  let p1 := fastInteractWorkProb parm L1 x1 1
  let p2 := fastInteractSchoolProb parm L2 x2 p1
  let p3 := fastInteractWorkNborhoodProb parm L3 x3 p2
  let p4 := fastInteractHomeProb parm L4 x4 p3
  let p5 := fastInteractHomeNborhoodProb parm L5 x5 p4
  (p1, p2, p3, p4, p5)

/-- The error-handling contract on the transmission inputs: every xmit table
entry and the vaccine factor 1 - vac_eff lie in the unit interval. -/
structure ParmBounded (parm : DiseaseParm) : Prop where
  comm : ∀ g, 0 ≤ parm.xmit_comm g ∧ parm.xmit_comm g ≤ 1
  hood : ∀ g, 0 ≤ parm.xmit_hood g ∧ parm.xmit_hood g ≤ 1
  hh_adult : ∀ g, 0 ≤ parm.xmit_hh_adult g ∧ parm.xmit_hh_adult g ≤ 1
  hh_child : ∀ g, 0 ≤ parm.xmit_hh_child g ∧ parm.xmit_hh_child g ≤ 1
  nc_adult : ∀ g, 0 ≤ parm.xmit_nc_adult g ∧ parm.xmit_nc_adult g ≤ 1
  nc_child : ∀ g, 0 ≤ parm.xmit_nc_child g ∧ parm.xmit_nc_child g ≤ 1
  school : ∀ t, 0 ≤ parm.xmit_school t ∧ parm.xmit_school t ≤ 1
  school_a2c : ∀ t, 0 ≤ parm.xmit_school_a2c t ∧ parm.xmit_school_a2c t ≤ 1
  school_c2a : ∀ t, 0 ≤ parm.xmit_school_c2a t ∧ parm.xmit_school_c2a t ≤ 1
  work : 0 ≤ parm.xmit_work ∧ parm.xmit_work ≤ 1
  vac : 0 ≤ 1 - parm.vac_eff ∧ 1 - parm.vac_eff ≤ 1

/-- Rewrites the home neighborhood id of an agent (used to state that the
work-neighborhood kernel never consults that field). -/
def setNborhoodA (gf : Agent → ℤ) (y : AgentD) : AgentD :=
  ⟨{ y.a with nborhood := gf y.a }, y.ds⟩

/-! ### Concrete inputs for witnesses and counterexamples -/

/-- Default-ish parameter block with zero transmission entries, sure
hospitalization path and one-half death probabilities. -/
def parmW : DiseaseParm :=
  { xmit_comm := fun _ => 0, xmit_hood := fun _ => 0, xmit_hh_adult := fun _ => 0
  , xmit_hh_child := fun _ => 0, xmit_nc_adult := fun _ => 0, xmit_nc_child := fun _ => 0
  , xmit_school := fun _ => 0, xmit_school_a2c := fun _ => 0, xmit_school_c2a := fun _ => 0
  , xmit_work := 0, p_asymp := 0, vac_eff := 0
  , m_t_hosp := fun g => if g = 2 then 7 else if g = 1 then 8 else 3
  , m_t_hosp_offset := 10
  , m_CHR := fun _ => 1, m_CIC := fun _ => 1, m_CVE := fun _ => 1
  , m_hospToDeath := fun _ _ => 1/2 }

/-- Parameter block for the work-neighborhood counterexample: neighborhood
transmission one-half, community transmission zero. -/
def parmC2 : DiseaseParm :=
  { parmW with xmit_hood := fun _ => 1/2 }

/-- A hospitalized agent (hospital cell 0,0). -/
def agentHosp : Agent := { hosp_i := 0, hosp_j := 0 }

/-- Hospitalized disease state dying at the end of the ventilator phase:
timer 21 decrements to 20 = 2 * t_hosp_offset. -/
def dsVent : DiseaseState :=
  { status := 1, treatment_timer := 21, disease_counter := 5, incubation_period := 3 }

/-- Hospitalized disease state reaching the end of the ICU phase:
timer 11 decrements to 10 = t_hosp_offset. -/
def dsICU : DiseaseState :=
  { status := 1, treatment_timer := 11, disease_counter := 5, incubation_period := 3 }

/-- Hospitalized disease state reaching the end of the hospital phase:
timer 1 decrements to 0. -/
def dsHospEnd : DiseaseState :=
  { status := 1, treatment_timer := 1, disease_counter := 5, incubation_period := 3 }

/-- One-disease item list in which the outcome draw 0 < 1/2 kills the agent
at the end of the hospital phase. -/
def itemsDeath : List (DiseaseParm × DiseaseState × ℚ × ℚ) :=
  [(parmW, dsHospEnd, 0, 100)]

/-- Infectious under-5 child, home neighborhood 1, work neighborhood 2. -/
def childInf : AgentD :=
  ⟨{ age_group := 0, nborhood := 1, work_nborhood := 2 },
   { status := 1, disease_counter := 1, latent_period := 0 }⟩

/-- Susceptible under-5 child, home neighborhood 1, work neighborhood 3. -/
def childSus : AgentD :=
  ⟨{ age_group := 0, nborhood := 1, work_nborhood := 3 },
   { status := 0 }⟩

def tileC2 : List AgentD := [childInf]

/-- Cluster-subtraction scenario: three infectious not-withdrawn adults in
families 0 and 1 of cluster 0, and a susceptible adult in family 2 of the
same cluster, all in community 0, neighborhood 0. -/
def adultInfFam (f : ℤ) : AgentD :=
  ⟨{ age_group := 3, family := f },
   { status := 1, disease_counter := 1, latent_period := 0 }⟩

def tileCluster : List AgentD := [adultInfFam 0, adultInfFam 0, adultInfFam 1]

def adultSusFam2 : AgentD := ⟨{ age_group := 3, family := 2 }, { status := 0 }⟩

/-- Susceptible agent used for day-chain witnesses. -/
def agentDayW : AgentD := ⟨{}, { status := 0 }⟩

/-! ## Theorems -/

/-- Counterexample for C3: an agent that was withdrawn before the shelter
order (withdrawn = 1) is not withdrawn after shelter-start followed by
shelter-stop; the stop command clears the flag for everyone, so the
round trip does not restore the pre-start value. -/
theorem shelter_roundtrip_cex :
    ¬ shelterStopAgent (shelterStartAgent (1/2) (3/4) 1) = 1 := by
  decide

/-- C3 (amended): shelter-start followed by shelter-stop always leaves
withdrawn equal to 0, for every compliance, draw and prior value; hence the
round trip restores the pre-start value exactly when that value was 0. -/
theorem shelter_roundtrip (compliance r : ℚ) (w : ℤ) :
    shelterStopAgent (shelterStartAgent compliance r w) = 0 ∧
    (w = 0 → shelterStopAgent (shelterStartAgent compliance r w) = w) := by
  refine ⟨rfl, fun hw => ?_⟩
  simp [shelterStopAgent, hw]

/-- Witness for the amended C3 theorem at a concrete non-withdrawn agent. -/
theorem shelter_roundtrip_witness :
    shelterStopAgent (shelterStartAgent 1 0 0) = 0 :=
  (shelter_roundtrip 1 0 0).2 rfl

/-- C9: moveAgentsToWork followed by moveAgentsToHome puts every
non-hospitalized agent at its home cell center (census initialization), and
leaves a hospitalized agent's position untouched by both calls. -/
theorem commute_roundtrip (dx0 dx1 : ℚ) (a : Agent) (p : Pos) :
    (inHospital a = false →
      moveAgentsToHomePos dx0 dx1 a (moveAgentsToWorkPos dx0 dx1 a p) =
        ⟨(a.home_i + 1/2) * dx0, (a.home_j + 1/2) * dx1⟩) ∧
    (inHospital a = true →
      moveAgentsToWorkPos dx0 dx1 a p = p ∧
      moveAgentsToHomePos dx0 dx1 a (moveAgentsToWorkPos dx0 dx1 a p) = p) := by
  constructor
  · intro h
    simp [moveAgentsToWorkPos, moveAgentsToHomePos, h]
  · intro h
    simp [moveAgentsToWorkPos, moveAgentsToHomePos, h]

/-- Witness for C9 at a concrete non-hospitalized agent. -/
theorem commute_roundtrip_witness :
    inHospital ({} : Agent) = false ∧
    moveAgentsToHomePos 1 1 ({} : Agent) (moveAgentsToWorkPos 1 1 ({} : Agent) ⟨5, 5⟩) =
      ⟨(({} : Agent).home_i + 1/2) * 1, (({} : Agent).home_j + 1/2) * 1⟩ :=
  ⟨by decide, (commute_roundtrip 1 1 ({} : Agent) ⟨5, 5⟩).1 (by decide)⟩

/-- C7: in the infection resolver, a never/susceptible agent is infected
exactly when the uniform draw falls below 1 - prob; a new infection sets
status to infected and the counter to 0, clamps the three freshly sampled
periods at 0, and caps the incubation period by latent + infectious; any
other status never changes in this phase. -/
theorem infectAgents_spec (ds : DiseaseState) (r gL gI gC : ℚ) :
    ((ds.status = Status.never ∨ ds.status = Status.susceptible) → r < 1 - ds.prob →
      (infectAgentsStep ds r gL gI gC).status = Status.infected ∧
      (infectAgentsStep ds r gL gI gC).disease_counter = 0 ∧
      0 ≤ (infectAgentsStep ds r gL gI gC).latent_period ∧
      0 ≤ (infectAgentsStep ds r gL gI gC).infectious_period ∧
      0 ≤ (infectAgentsStep ds r gL gI gC).incubation_period ∧
      (infectAgentsStep ds r gL gI gC).incubation_period ≤
        (infectAgentsStep ds r gL gI gC).latent_period +
          (infectAgentsStep ds r gL gI gC).infectious_period) ∧
    ((ds.status = Status.never ∨ ds.status = Status.susceptible) → ¬ r < 1 - ds.prob →
      infectAgentsStep ds r gL gI gC = { ds with prob := 1 - ds.prob }) ∧
    (¬ (ds.status = Status.never ∨ ds.status = Status.susceptible) →
      infectAgentsStep ds r gL gI gC = { ds with prob := 1 - ds.prob }) := by
  have hclampL : (0 : ℚ) ≤ if gL < 0 then 0 else gL := by
    split
    · exact le_refl 0
    · exact le_of_not_lt (by assumption)
  have hclampI : (0 : ℚ) ≤ if gI < 0 then 0 else gI := by
    split
    · exact le_refl 0
    · exact le_of_not_lt (by assumption)
  have hclampC : (0 : ℚ) ≤ if gC < 0 then 0 else gC := by
    split
    · exact le_refl 0
    · exact le_of_not_lt (by assumption)
  unfold infectAgentsStep setInfected
  set lat : ℚ := if gL < 0 then 0 else gL with hlatdef
  set inf : ℚ := if gI < 0 then 0 else gI with hinfdef
  set inc0 : ℚ := if gC < 0 then 0 else gC with hinc0def
  refine ⟨fun hs hr => ?_, fun hs hr => ?_, fun hs => ?_⟩
  · rw [if_pos ⟨hs, hr⟩]
    refine ⟨rfl, rfl, hclampL, hclampI, ?_, ?_⟩
    · dsimp only
      split
      · rename_i hgt
        have hsum : (0 : ℚ) ≤ inf + lat := by linarith
        exact_mod_cast Int.floor_nonneg.mpr hsum
      · exact hclampC
    · dsimp only
      split
      · rename_i hgt
        calc ((⌊inf + lat⌋ : ℤ) : ℚ) ≤ inf + lat := Int.floor_le _
          _ = lat + inf := add_comm _ _
      · rename_i hn
        rw [not_lt] at hn
        linarith
  · rw [if_neg]
    intro ⟨_, hlt⟩
    exact hr hlt
  · rw [if_neg]
    intro ⟨hss, _⟩
    exact hs hss

/-- Witness for C7: a susceptible agent with prob 0 is infected by draw 0,
and a dead agent is untouched. -/
theorem infectAgents_spec_witness :
    ((({ status := 3, prob := 0 } : DiseaseState).status = Status.never ∨
      ({ status := 3, prob := 0 } : DiseaseState).status = Status.susceptible) ∧
      (0 : ℚ) < 1 - ({ status := 3, prob := 0 } : DiseaseState).prob) ∧
    (infectAgentsStep { status := 3, prob := 0 } 0 2 3 10).status = Status.infected ∧
    (infectAgentsStep { status := 3, prob := 0 } 0 2 3 10).incubation_period ≤
      (infectAgentsStep { status := 3, prob := 0 } 0 2 3 10).latent_period +
        (infectAgentsStep { status := 3, prob := 0 } 0 2 3 10).infectious_period :=
  ⟨⟨by decide, by norm_num⟩,
   ((infectAgents_spec { status := 3, prob := 0 } 0 2 3 10).1 (by decide) (by norm_num)).1,
   ((infectAgents_spec { status := 3, prob := 0 } 0 2 3 10).1 (by decide) (by norm_num)).2.2.2.2.2⟩

/-- Counterexample for C1: an agent dying at the end of the ventilator phase
gets flag -3; the statistics pass then records +1 death AND decrements the
hospitalization, ICU and ventilator counters (the deltas test the absolute
value of the flag), contradicting the claim that only a death is recorded
and those counters keep their admission counts. -/
theorem hospStats_death_cex :
    (treatAgentsStep parmW agentHosp 0 true 0 dsVent 0 100).flag = -3 ∧
    hospStatsDelta (-3) = ⟨1, -1, -1, -1⟩ ∧
    ¬ ((hospStatsDelta (-3)).hosp = 0 ∧ (hospStatsDelta (-3)).icu = 0 ∧
        (hospStatsDelta (-3)).vent = 0) := by
  refine ⟨?_, by decide, by decide⟩
  norm_num [treatAgentsStep, treatFlag, parmW, agentHosp, dsVent, inHospital,
    DiseaseStats.hospitalization, DiseaseStats.ICU, DiseaseStats.ventilator]

/-- C1 (amended): when the outcome draw in treatAgents kills the agent
(negative flag), the statistics record +1 death and additionally apply
exactly the same phase-end decrements to the hospitalization, ICU and
ventilator counters as a surviving agent with the same phase flag would
receive (the deltas depend only on the flag's absolute value). -/
theorem hospStats_death_amended (parm : DiseaseParm) (a : Agent) (w : ℤ)
    (alive : Bool) (flagIn : ℤ) (ds : DiseaseState) (r g : ℚ)
    (hdead : (treatAgentsStep parm a w alive flagIn ds r g).flag < 0) :
    (hospStatsDelta (treatAgentsStep parm a w alive flagIn ds r g).flag).death = 1 ∧
    (hospStatsDelta (-(treatAgentsStep parm a w alive flagIn ds r g).flag)).death = 0 ∧
    (hospStatsDelta (treatAgentsStep parm a w alive flagIn ds r g).flag).hosp =
      (hospStatsDelta (-(treatAgentsStep parm a w alive flagIn ds r g).flag)).hosp ∧
    (hospStatsDelta (treatAgentsStep parm a w alive flagIn ds r g).flag).icu =
      (hospStatsDelta (-(treatAgentsStep parm a w alive flagIn ds r g).flag)).icu ∧
    (hospStatsDelta (treatAgentsStep parm a w alive flagIn ds r g).flag).vent =
      (hospStatsDelta (-(treatAgentsStep parm a w alive flagIn ds r g).flag)).vent := by
  set f := (treatAgentsStep parm a w alive flagIn ds r g).flag with hf
  have hpos : (0 : ℤ) < -f := by omega
  have hnn : ¬ (-f < 0) := by omega
  unfold hospStatsDelta
  rw [abs_neg]
  exact ⟨by simp [hdead], by simp [hnn], rfl, rfl, rfl⟩

/-- Witness for the amended C1 theorem at the concrete ventilator-phase
death. -/
theorem hospStats_death_amended_witness :
    (hospStatsDelta (treatAgentsStep parmW agentHosp 0 true 0 dsVent 0 100).flag).death = 1 ∧
    (hospStatsDelta (treatAgentsStep parmW agentHosp 0 true 0 dsVent 0 100).flag).hosp =
      (hospStatsDelta (-(treatAgentsStep parmW agentHosp 0 true 0 dsVent 0 100).flag)).hosp :=
  ⟨(hospStats_death_amended parmW agentHosp 0 true 0 dsVent 0 100
      (by norm_num [treatAgentsStep, treatFlag, parmW, agentHosp, dsVent, inHospital,
        DiseaseStats.hospitalization, DiseaseStats.ICU, DiseaseStats.ventilator])).1,
   (hospStats_death_amended parmW agentHosp 0 true 0 dsVent 0 100
      (by norm_num [treatAgentsStep, treatFlag, parmW, agentHosp, dsVent, inHospital,
        DiseaseStats.hospitalization, DiseaseStats.ICU, DiseaseStats.ventilator])).2.2.1⟩

/-- C6: the per-disease hospital treatment step leaves a disease's state
untouched when the agent is not hospitalized, was admitted that day
(counter equals the floored incubation period), has timer 0, or is dead;
otherwise it decrements the timer by exactly 1, consults the outcome table
at most once, and uses the ventilator row (2) when the decremented timer
reaches 2 * t_hosp_offset, the ICU row (1) at t_hosp_offset, and the
hospital row (0) at 0; a draw resolves to death (timer kept at the
decremented value) or recovery (timer zeroed, status immune). -/
theorem treatAgents_step_spec (parm : DiseaseParm) (a : Agent) (w : ℤ) (alive : Bool)
    (flagIn : ℤ) (ds : DiseaseState) (r g : ℚ)
    (hoff : 0 < parm.m_t_hosp_offset) :
    (inHospital a = false →
      treatAgentsStep parm a w alive flagIn ds r g = ⟨ds, w, alive, flagIn, none⟩) ∧
    (inHospital a = true →
      (ds.disease_counter = ((⌊ds.incubation_period⌋ : ℤ) : ℚ) ∨
        ds.treatment_timer = 0 ∨ alive = false) →
      treatAgentsStep parm a w alive flagIn ds r g = ⟨ds, w, alive, flagIn, none⟩) ∧
    (inHospital a = true →
      ¬ ds.disease_counter = ((⌊ds.incubation_period⌋ : ℤ) : ℚ) →
      ¬ ds.treatment_timer = 0 → alive = true →
      (((treatAgentsStep parm a w alive flagIn ds r g).usedRow = none →
          (treatAgentsStep parm a w alive flagIn ds r g).ds =
            { ds with treatment_timer := ds.treatment_timer - 1 }) ∧
       ((treatAgentsStep parm a w alive flagIn ds r g).usedRow ≠ none →
          ((treatAgentsStep parm a w alive flagIn ds r g).ds.treatment_timer =
              ds.treatment_timer - 1 ∧
            (treatAgentsStep parm a w alive flagIn ds r g).ds.status = Status.dead) ∨
          ((treatAgentsStep parm a w alive flagIn ds r g).ds.treatment_timer = 0 ∧
            (treatAgentsStep parm a w alive flagIn ds r g).ds.status = Status.immune)) ∧
       (ds.treatment_timer - 1 = 0 →
          (treatAgentsStep parm a w alive flagIn ds r g).usedRow = some 0) ∧
       (ds.treatment_timer - 1 = parm.m_t_hosp_offset →
          (treatAgentsStep parm a w alive flagIn ds r g).usedRow = some 1) ∧
       (ds.treatment_timer - 1 = 2 * parm.m_t_hosp_offset →
          (treatAgentsStep parm a w alive flagIn ds r g).usedRow = some 2))) := by
  refine ⟨fun hnh => ?_, fun hh hskip => ?_, fun hh h1 h2 h3 => ?_⟩
  · unfold treatAgentsStep
    simp [hnh]
  · unfold treatAgentsStep
    rcases hskip with h | h | h <;> simp [hh, h]
  · have hstep : treatAgentsStep parm a w alive flagIn ds r g =
        (if 0 < treatFlag parm flagIn (ds.treatment_timer - 1) then
           if r < parm.m_hospToDeath (treatFlag parm flagIn (ds.treatment_timer - 1) - 1)
               a.age_group then
             ⟨{ ds with treatment_timer := ds.treatment_timer - 1, status := Status.dead },
               w, false, -treatFlag parm flagIn (ds.treatment_timer - 1),
               some (treatFlag parm flagIn (ds.treatment_timer - 1) - 1)⟩
           else
             ⟨{ ds with treatment_timer := 0, status := Status.immune,
                        disease_counter := g,
                        symptomatic := SymptomStatus.presymptomatic }, 0, alive,
               treatFlag parm flagIn (ds.treatment_timer - 1),
               some (treatFlag parm flagIn (ds.treatment_timer - 1) - 1)⟩
         else ⟨{ ds with treatment_timer := ds.treatment_timer - 1 }, w, alive,
           treatFlag parm flagIn (ds.treatment_timer - 1), none⟩ : TreatOut) := by
      unfold treatAgentsStep
      simp [hh, h1, h2, h3]
    rw [hstep]
    set t : ℚ := ds.treatment_timer - 1 with htdef
    have hoffne : ¬ (0 : ℚ) = parm.m_t_hosp_offset := fun hc => absurd hc (ne_of_lt hoff)
    have hoffne2 : ¬ (0 : ℚ) = 2 * parm.m_t_hosp_offset := by
      intro hc
      nlinarith
    have hoffne3 : ¬ parm.m_t_hosp_offset = 2 * parm.m_t_hosp_offset := by
      intro hc
      nlinarith
    have hoffne4 : ¬ 2 * parm.m_t_hosp_offset = 0 := by
      intro hc
      nlinarith
    by_cases ht0 : t = 0
    · have hflag : treatFlag parm flagIn t = 1 := by
        unfold treatFlag
        rw [if_pos ht0]
        norm_num [DiseaseStats.hospitalization]
      rw [hflag]
      rw [if_pos (by norm_num : (0:ℤ) < 1)]
      refine ⟨?_, ?_, ?_, ?_, ?_⟩
      · by_cases hdeath : r < parm.m_hospToDeath (1 - 1) a.age_group
        · rw [if_pos hdeath]
          exact fun hc => Option.noConfusion hc
        · rw [if_neg hdeath]
          exact fun hc => Option.noConfusion hc
      · by_cases hdeath : r < parm.m_hospToDeath (1 - 1) a.age_group
        · rw [if_pos hdeath]
          exact fun _ => Or.inl ⟨rfl, rfl⟩
        · rw [if_neg hdeath]
          exact fun _ => Or.inr ⟨rfl, rfl⟩
      · intro _
        by_cases hdeath : r < parm.m_hospToDeath (1 - 1) a.age_group
        · rw [if_pos hdeath]
          norm_num
        · rw [if_neg hdeath]
          norm_num
      · intro h
        exact absurd (ht0.symm.trans h) hoffne
      · intro h
        exact absurd (ht0.symm.trans h) hoffne2
    · by_cases htoff : t = parm.m_t_hosp_offset
      · have hflag : treatFlag parm flagIn t = 2 := by
          unfold treatFlag
          rw [if_neg ht0, if_pos htoff]
          norm_num [DiseaseStats.ICU]
        rw [hflag]
        rw [if_pos (by norm_num : (0:ℤ) < 2)]
        refine ⟨?_, ?_, ?_, ?_, ?_⟩
        · by_cases hdeath : r < parm.m_hospToDeath (2 - 1) a.age_group
          · rw [if_pos hdeath]
            exact fun hc => Option.noConfusion hc
          · rw [if_neg hdeath]
            exact fun hc => Option.noConfusion hc
        · by_cases hdeath : r < parm.m_hospToDeath (2 - 1) a.age_group
          · rw [if_pos hdeath]
            exact fun _ => Or.inl ⟨rfl, rfl⟩
          · rw [if_neg hdeath]
            exact fun _ => Or.inr ⟨rfl, rfl⟩
        · intro h
          exact absurd h ht0
        · intro _
          by_cases hdeath : r < parm.m_hospToDeath (2 - 1) a.age_group
          · rw [if_pos hdeath]
            norm_num
          · rw [if_neg hdeath]
            norm_num
        · intro h
          exact absurd (htoff.symm.trans h) hoffne3
      · by_cases ht2off : t = 2 * parm.m_t_hosp_offset
        · have hflag : treatFlag parm flagIn t = 3 := by
            unfold treatFlag
            rw [if_neg ht0, if_neg htoff, if_pos ht2off]
            norm_num [DiseaseStats.ventilator]
          rw [hflag]
          rw [if_pos (by norm_num : (0:ℤ) < 3)]
          refine ⟨?_, ?_, ?_, ?_, ?_⟩
          · by_cases hdeath : r < parm.m_hospToDeath (3 - 1) a.age_group
            · rw [if_pos hdeath]
              exact fun hc => Option.noConfusion hc
            · rw [if_neg hdeath]
              exact fun hc => Option.noConfusion hc
          · by_cases hdeath : r < parm.m_hospToDeath (3 - 1) a.age_group
            · rw [if_pos hdeath]
              exact fun _ => Or.inl ⟨rfl, rfl⟩
            · rw [if_neg hdeath]
              exact fun _ => Or.inr ⟨rfl, rfl⟩
          · intro h
            exact absurd h ht0
          · intro h
            exact absurd (h.symm.trans ht2off) hoffne3
          · intro _
            by_cases hdeath : r < parm.m_hospToDeath (3 - 1) a.age_group
            · rw [if_pos hdeath]
              norm_num
            · rw [if_neg hdeath]
              norm_num
        · have hflag : treatFlag parm flagIn t = flagIn := by
            unfold treatFlag
            rw [if_neg ht0, if_neg htoff, if_neg ht2off]
          rw [hflag]
          refine ⟨?_, ?_, ?_, ?_, ?_⟩
          · by_cases hpos : 0 < flagIn
            · rw [if_pos hpos]
              by_cases hdeath : r < parm.m_hospToDeath (flagIn - 1) a.age_group
              · rw [if_pos hdeath]
                exact fun hc => Option.noConfusion hc
              · rw [if_neg hdeath]
                exact fun hc => Option.noConfusion hc
            · rw [if_neg hpos]
              exact fun _ => rfl
          · by_cases hpos : 0 < flagIn
            · rw [if_pos hpos]
              by_cases hdeath : r < parm.m_hospToDeath (flagIn - 1) a.age_group
              · rw [if_pos hdeath]
                exact fun _ => Or.inl ⟨rfl, rfl⟩
              · rw [if_neg hdeath]
                exact fun _ => Or.inr ⟨rfl, rfl⟩
            · rw [if_neg hpos]
              exact fun hc => absurd rfl hc
          · intro h
            exact absurd h ht0
          · intro h
            exact absurd h htoff
          · intro h
            exact absurd h ht2off

/-- Witness for C6: at the ICU boundary (timer 11, offset 10) the outcome
draw consults row 1. -/
theorem treatAgents_step_spec_witness :
    (treatAgentsStep parmW agentHosp 0 true 0 dsICU 0 100).usedRow = some 1 :=
  ((treatAgents_step_spec parmW agentHosp 0 true 0 dsICU 0 100
      (by norm_num [parmW])).2.2
    (by rfl) (by norm_num [dsICU]) (by norm_num [dsICU]) rfl).2.2.2.1
    (by norm_num [dsICU, parmW])

/-- Counterexample for C2: an infectious under-5 child (home neighborhood 1,
work neighborhood 2) and a susceptible under-5 child (home neighborhood 1,
work neighborhood 3) share the spec's same-neighborhood group (home
neighborhood 1, count 1), but the compiled fast kernel keys both by
work_nborhood and finds 0 same-neighborhood infectious agents, so the
susceptible child's probability is left at 1 even though the neighborhood
transmission entry is 1/2. -/
theorem workNborhood_group_cex :
    kernelSameNborCountWN tileC2 childSus ≠ specSameNborCountWN tileC2 childSus ∧
    specSameNborCountWN tileC2 childSus = 1 ∧
    kernelSameNborCountWN tileC2 childSus = 0 ∧
    parmC2.xmit_hood 0 = 1/2 ∧
    fastInteractWorkNborhoodProb parmC2 tileC2 childSus 1 = 1 := by
  refine ⟨by decide, by decide, by decide, by norm_num [parmC2, parmW], ?_⟩
  norm_num [fastInteractWorkNborhoodProb, kernelSameNborCountWN, infectedNborhoodWN,
    infectedCommunityWN, tileC2, childSus, childInf, parmC2, parmW, isSusceptible,
    isInfectious, WorkNborhoodCandidate, inHospital, Status.infected, Status.immune,
    Status.dead, List.countP, List.countP.go]

/-- C2 (amended): the compiled fast work-neighborhood kernel determines the
same-neighborhood group by work_nborhood for every agent regardless of age
group — both in the infectious tally and in the susceptible exposure count —
and never consults the home nborhood field: rewriting every agent's nborhood
arbitrarily changes neither the exposure count nor the probability update. -/
theorem workNborhood_group_amended (parm : DiseaseParm) (L : List AgentD)
    (x : AgentD) (p : ℚ) (gf : Agent → ℤ) :
    kernelSameNborCountWN (L.map (setNborhoodA gf)) (setNborhoodA gf x) =
      kernelSameNborCountWN L x ∧
    fastInteractWorkNborhoodProb parm (L.map (setNborhoodA gf)) (setNborhoodA gf x) p =
      fastInteractWorkNborhoodProb parm L x p ∧
    kernelSameNborCountWN L x =
      L.countP (fun y => isInfectious y.ds && WorkNborhoodCandidate y.a &&
        decide (y.a.community = x.a.community) &&
        decide (y.a.work_nborhood = x.a.work_nborhood)) := by
  refine ⟨?_, ?_, rfl⟩
  · unfold kernelSameNborCountWN infectedNborhoodWN
    rw [List.countP_map]
    rfl
  · unfold fastInteractWorkNborhoodProb kernelSameNborCountWN infectedNborhoodWN
      infectedCommunityWN
    rw [List.countP_map, List.countP_map]
    rfl

/-- In a tile where all members of the susceptible agent's family (same
community, same family id) live in the agent's neighborhood, the family
not-withdrawn tally is dominated by the (community, nborhood, cluster)
tally: every agent counted by the former is counted by the latter. -/
theorem infectedFamilyNW_le_infectedNC (adults : Bool) (L : List AgentD) (x : AgentD)
    (hfam : ∀ y ∈ L, y.a.community = x.a.community → y.a.family = x.a.family →
      y.a.nborhood = x.a.nborhood) :
    infectedFamilyNotWithdrawn adults L x.a.community x.a.family ≤
      infectedNeighborCluster adults L x.a.community x.a.nborhood (clusterOf x.a.family) := by
  unfold infectedFamilyNotWithdrawn infectedNeighborCluster
  apply List.countP_mono_left
  intro y hy hpred
  simp only [Bool.and_eq_true, decide_eq_true_eq] at hpred ⊢
  obtain ⟨⟨⟨⟨⟨hinf, hcand⟩, hadult⟩, hcomm⟩, hfamily⟩, hwith⟩ := hpred
  exact ⟨⟨⟨⟨⟨⟨hinf, hcand⟩, hadult⟩, hcomm⟩, hfam y hy hcomm hfamily⟩,
    by rw [hfamily]⟩, hwith⟩

/-- C5: for a non-withdrawn susceptible home candidate, the home kernel's
cluster exposure exponent is the (community, nborhood, cluster) count of
infectious not-withdrawn agents minus the agent's own family's infectious
not-withdrawn count; under the structural property that family members share
the neighborhood this difference is never negative; and the family exponent
separately uses the total (withdrawn-inclusive) infectious family count. -/
theorem homeCluster_spec (adults : Bool) (parm : DiseaseParm) (L : List AgentD)
    (x : AgentD) (p : ℚ)
    (hsus : (isSusceptible x.ds && HomeCandidate x.a) = true)
    (hw : x.a.withdrawn = 0)
    (hfam : ∀ y ∈ L, y.a.community = x.a.community → y.a.family = x.a.family →
      y.a.nborhood = x.a.nborhood) :
    homeClusterExponent adults L x =
      (infectedNeighborCluster adults L x.a.community x.a.nborhood
          (clusterOf x.a.family) : ℤ) -
        (infectedFamilyNotWithdrawn adults L x.a.community x.a.family : ℤ) ∧
    0 ≤ homeClusterExponent adults L x ∧
    fastInteractHomePass adults parm L x p =
      p * (1 - (1 - parm.vac_eff) *
            (if adults then parm.xmit_hh_adult x.a.age_group
             else parm.xmit_hh_child x.a.age_group) * 1) ^
          infectedFamily adults L x.a.community x.a.family *
        (1 - (1 - parm.vac_eff) *
            (if adults then parm.xmit_nc_adult x.a.age_group
             else parm.xmit_nc_child x.a.age_group) * 1) ^
          (homeClusterExponent adults L x).toNat := by
  refine ⟨rfl, ?_, ?_⟩
  · unfold homeClusterExponent
    have hle := infectedFamilyNW_le_infectedNC adults L x hfam
    omega
  · unfold fastInteractHomePass
    rw [if_pos hsus, if_pos hw]

/-- Witness for C5 at the cluster-subtraction scenario: three infectious
not-withdrawn adults in two other families of the susceptible's cluster give
exponent 3 - 0 = 3. -/
theorem homeCluster_spec_witness :
    0 ≤ homeClusterExponent true tileCluster adultSusFam2 ∧
    homeClusterExponent true tileCluster adultSusFam2 = 3 :=
  ⟨(homeCluster_spec true parmW tileCluster adultSusFam2 1 (by decide) rfl
      (by decide)).2.1,
   by decide⟩

/-- The per-factor base 1 - infect * xmit * scale lies in the unit interval
whenever infect and xmit do (scale is 1 in all kernels). -/
theorem survival_base_bounds (i x : ℚ) (hi0 : 0 ≤ i) (hi1 : i ≤ 1)
    (hx0 : 0 ≤ x) (hx1 : x ≤ 1) :
    0 ≤ 1 - i * x * 1 ∧ 1 - i * x * 1 ≤ 1 := by
  constructor
  · nlinarith
  · nlinarith

/-- Multiplying a nonnegative survival accumulator by a unit-interval base
raised to a natural count keeps it nonnegative and does not increase it. -/
theorem survival_mul_pow_bounds (p b : ℚ) (k : ℕ) (hp : 0 ≤ p) (hb0 : 0 ≤ b)
    (hb1 : b ≤ 1) :
    0 ≤ p * b ^ k ∧ p * b ^ k ≤ p := by
  constructor
  · exact mul_nonneg hp (pow_nonneg hb0 k)
  · exact mul_le_of_le_one_right hp (pow_le_one₀ hb0 hb1)

theorem fastInteractWorkProb_bounds (parm : DiseaseParm) (hb : ParmBounded parm)
    (L : List AgentD) (x : AgentD) (p : ℚ) (hp : 0 ≤ p) :
    0 ≤ fastInteractWorkProb parm L x p ∧ fastInteractWorkProb parm L x p ≤ p := by
  unfold fastInteractWorkProb
  split
  · obtain ⟨h0, h1⟩ := survival_base_bounds (1 - parm.vac_eff) parm.xmit_work
      hb.vac.1 hb.vac.2 hb.work.1 hb.work.2
    exact survival_mul_pow_bounds p _ _ hp h0 h1
  · exact ⟨hp, le_refl p⟩

theorem fastInteractWorkNborhoodProb_bounds (parm : DiseaseParm) (hb : ParmBounded parm)
    (L : List AgentD) (x : AgentD) (p : ℚ) (hp : 0 ≤ p) :
    0 ≤ fastInteractWorkNborhoodProb parm L x p ∧
      fastInteractWorkNborhoodProb parm L x p ≤ p := by
  unfold fastInteractWorkNborhoodProb
  split
  · obtain ⟨hc0, hc1⟩ := survival_base_bounds (1 - parm.vac_eff)
      (parm.xmit_comm x.a.age_group) hb.vac.1 hb.vac.2
      (hb.comm x.a.age_group).1 (hb.comm x.a.age_group).2
    obtain ⟨hn0, hn1⟩ := survival_base_bounds (1 - parm.vac_eff)
      (parm.xmit_hood x.a.age_group) hb.vac.1 hb.vac.2
      (hb.hood x.a.age_group).1 (hb.hood x.a.age_group).2
    obtain ⟨ha, hab⟩ := survival_mul_pow_bounds p _
      (infectedCommunityWN L x.a.community - kernelSameNborCountWN L x) hp hc0 hc1
    obtain ⟨hc, hcb⟩ := survival_mul_pow_bounds _ _
      (kernelSameNborCountWN L x) ha hn0 hn1
    exact ⟨hc, le_trans hcb hab⟩
  · exact ⟨hp, le_refl p⟩

theorem fastInteractHomeNborhoodProb_bounds (parm : DiseaseParm) (hb : ParmBounded parm)
    (L : List AgentD) (x : AgentD) (p : ℚ) (hp : 0 ≤ p) :
    0 ≤ fastInteractHomeNborhoodProb parm L x p ∧
      fastInteractHomeNborhoodProb parm L x p ≤ p := by
  unfold fastInteractHomeNborhoodProb
  split
  · obtain ⟨hc0, hc1⟩ := survival_base_bounds (1 - parm.vac_eff)
      (parm.xmit_comm x.a.age_group) hb.vac.1 hb.vac.2
      (hb.comm x.a.age_group).1 (hb.comm x.a.age_group).2
    obtain ⟨hn0, hn1⟩ := survival_base_bounds (1 - parm.vac_eff)
      (parm.xmit_hood x.a.age_group) hb.vac.1 hb.vac.2
      (hb.hood x.a.age_group).1 (hb.hood x.a.age_group).2
    obtain ⟨ha, hab⟩ := survival_mul_pow_bounds p _
      (infectedCommunityHN L x.a.community -
        infectedNborhoodHN L x.a.community x.a.nborhood) hp hc0 hc1
    obtain ⟨hc, hcb⟩ := survival_mul_pow_bounds _ _
      (infectedNborhoodHN L x.a.community x.a.nborhood) ha hn0 hn1
    exact ⟨hc, le_trans hcb hab⟩
  · exact ⟨hp, le_refl p⟩

theorem homePass_shape_bounds (p f n : ℚ) (k1 k2 : ℕ) (hp : 0 ≤ p)
    (hf : 0 ≤ f ∧ f ≤ 1) (hn : 0 ≤ n ∧ n ≤ 1) :
    (0 ≤ p * f ^ k1 * n ^ k2 ∧ p * f ^ k1 * n ^ k2 ≤ p) ∧
    (0 ≤ p * f ^ k1 ∧ p * f ^ k1 ≤ p) := by
  obtain ⟨ha, hab⟩ := survival_mul_pow_bounds p f k1 hp hf.1 hf.2
  obtain ⟨hc, hcb⟩ := survival_mul_pow_bounds _ n k2 ha hn.1 hn.2
  exact ⟨⟨hc, le_trans hcb hab⟩, ha, hab⟩

theorem fastInteractHomePass_bounds (adults : Bool) (parm : DiseaseParm)
    (hb : ParmBounded parm) (L : List AgentD) (x : AgentD) (p : ℚ) (hp : 0 ≤ p) :
    0 ≤ fastInteractHomePass adults parm L x p ∧
      fastInteractHomePass adults parm L x p ≤ p := by
  cases adults with
  | false =>
    have hred : fastInteractHomePass false parm L x p =
        (if (isSusceptible x.ds && HomeCandidate x.a) = true then
          (if x.a.withdrawn = 0 then
            p * (1 - (1 - parm.vac_eff) * parm.xmit_hh_child x.a.age_group * 1) ^
                infectedFamily false L x.a.community x.a.family *
              (1 - (1 - parm.vac_eff) * parm.xmit_nc_child x.a.age_group * 1) ^
                (homeClusterExponent false L x).toNat
          else
            p * (1 - (1 - parm.vac_eff) * parm.xmit_hh_child x.a.age_group * 1) ^
                infectedFamily false L x.a.community x.a.family)
        else p) := rfl
    rw [hred]
    have h := homePass_shape_bounds p
      (1 - (1 - parm.vac_eff) * parm.xmit_hh_child x.a.age_group * 1)
      (1 - (1 - parm.vac_eff) * parm.xmit_nc_child x.a.age_group * 1)
      (infectedFamily false L x.a.community x.a.family)
      (homeClusterExponent false L x).toNat hp
      (survival_base_bounds _ _ hb.vac.1 hb.vac.2
        (hb.hh_child x.a.age_group).1 (hb.hh_child x.a.age_group).2)
      (survival_base_bounds _ _ hb.vac.1 hb.vac.2
        (hb.nc_child x.a.age_group).1 (hb.nc_child x.a.age_group).2)
    split
    · split
      · exact h.1
      · exact h.2
    · exact ⟨hp, le_refl p⟩
  | true =>
    have hred : fastInteractHomePass true parm L x p =
        (if (isSusceptible x.ds && HomeCandidate x.a) = true then
          (if x.a.withdrawn = 0 then
            p * (1 - (1 - parm.vac_eff) * parm.xmit_hh_adult x.a.age_group * 1) ^
                infectedFamily true L x.a.community x.a.family *
              (1 - (1 - parm.vac_eff) * parm.xmit_nc_adult x.a.age_group * 1) ^
                (homeClusterExponent true L x).toNat
          else
            p * (1 - (1 - parm.vac_eff) * parm.xmit_hh_adult x.a.age_group * 1) ^
                infectedFamily true L x.a.community x.a.family)
        else p) := rfl
    rw [hred]
    have h := homePass_shape_bounds p
      (1 - (1 - parm.vac_eff) * parm.xmit_hh_adult x.a.age_group * 1)
      (1 - (1 - parm.vac_eff) * parm.xmit_nc_adult x.a.age_group * 1)
      (infectedFamily true L x.a.community x.a.family)
      (homeClusterExponent true L x).toNat hp
      (survival_base_bounds _ _ hb.vac.1 hb.vac.2
        (hb.hh_adult x.a.age_group).1 (hb.hh_adult x.a.age_group).2)
      (survival_base_bounds _ _ hb.vac.1 hb.vac.2
        (hb.nc_adult x.a.age_group).1 (hb.nc_adult x.a.age_group).2)
    split
    · split
      · exact h.1
      · exact h.2
    · exact ⟨hp, le_refl p⟩

theorem fastInteractHomeProb_bounds (parm : DiseaseParm) (hb : ParmBounded parm)
    (L : List AgentD) (x : AgentD) (p : ℚ) (hp : 0 ≤ p) :
    0 ≤ fastInteractHomeProb parm L x p ∧ fastInteractHomeProb parm L x p ≤ p := by
  unfold fastInteractHomeProb
  obtain ⟨ha, hab⟩ := fastInteractHomePass_bounds true parm hb L x p hp
  obtain ⟨hc, hcb⟩ := fastInteractHomePass_bounds false parm hb L x _ ha
  exact ⟨hc, le_trans hcb hab⟩

theorem fastInteractSchoolPass_bounds (adults : Bool) (parm : DiseaseParm)
    (hb : ParmBounded parm) (L : List AgentD) (x : AgentD) (p : ℚ) (hp : 0 ≤ p) :
    0 ≤ fastInteractSchoolPass adults parm L x p ∧
      fastInteractSchoolPass adults parm L x p ≤ p := by
  cases adults with
  | false =>
    have hred : fastInteractSchoolPass false parm L x p =
        (if (isSusceptible x.ds && SchoolCandidate x.a) = true then
          (if getSchoolType x.a.school_grade = SchoolType.daycare then
            p * (1 - (1 - parm.vac_eff) * parm.xmit_school SchoolType.daycare * 1) ^
              infectedSchool true false L x.a.community x.a.school_id x.a.school_grade
          else
            p * (1 - (1 - parm.vac_eff) *
                (if x.a.age_group ≤ AgeGroups.a5to17 then
                  parm.xmit_school (getSchoolType x.a.school_grade)
                else parm.xmit_school_c2a (getSchoolType x.a.school_grade)) * 1) ^
              infectedSchool false false L x.a.community x.a.school_id x.a.school_grade)
        else p) := rfl
    rw [hred]
    have hx : 0 ≤ (if x.a.age_group ≤ AgeGroups.a5to17 then
          parm.xmit_school (getSchoolType x.a.school_grade)
        else parm.xmit_school_c2a (getSchoolType x.a.school_grade)) ∧
        (if x.a.age_group ≤ AgeGroups.a5to17 then
          parm.xmit_school (getSchoolType x.a.school_grade)
        else parm.xmit_school_c2a (getSchoolType x.a.school_grade)) ≤ 1 := by
      split
      · exact hb.school (getSchoolType x.a.school_grade)
      · exact hb.school_c2a (getSchoolType x.a.school_grade)
    split
    · split
      · obtain ⟨h0, h1⟩ := survival_base_bounds (1 - parm.vac_eff)
          (parm.xmit_school SchoolType.daycare) hb.vac.1 hb.vac.2
          (hb.school SchoolType.daycare).1 (hb.school SchoolType.daycare).2
        exact survival_mul_pow_bounds p _ _ hp h0 h1
      · obtain ⟨h0, h1⟩ := survival_base_bounds (1 - parm.vac_eff) _
          hb.vac.1 hb.vac.2 hx.1 hx.2
        exact survival_mul_pow_bounds p _ _ hp h0 h1
    · exact ⟨hp, le_refl p⟩
  | true =>
    have hred : fastInteractSchoolPass true parm L x p =
        (if (isSusceptible x.ds && SchoolCandidate x.a) = true then
          (if getSchoolType x.a.school_grade = SchoolType.daycare then
            p * (1 - (1 - parm.vac_eff) * parm.xmit_school SchoolType.daycare * 1) ^
              infectedSchool true true L x.a.community x.a.school_id x.a.school_grade
          else
            p * (1 - (1 - parm.vac_eff) *
                (if x.a.age_group ≤ AgeGroups.a5to17 then
                  parm.xmit_school_a2c (getSchoolType x.a.school_grade)
                else parm.xmit_school (getSchoolType x.a.school_grade)) * 1) ^
              infectedSchool false true L x.a.community x.a.school_id x.a.school_grade)
        else p) := rfl
    rw [hred]
    have hx : 0 ≤ (if x.a.age_group ≤ AgeGroups.a5to17 then
          parm.xmit_school_a2c (getSchoolType x.a.school_grade)
        else parm.xmit_school (getSchoolType x.a.school_grade)) ∧
        (if x.a.age_group ≤ AgeGroups.a5to17 then
          parm.xmit_school_a2c (getSchoolType x.a.school_grade)
        else parm.xmit_school (getSchoolType x.a.school_grade)) ≤ 1 := by
      split
      · exact hb.school_a2c (getSchoolType x.a.school_grade)
      · exact hb.school (getSchoolType x.a.school_grade)
    split
    · split
      · obtain ⟨h0, h1⟩ := survival_base_bounds (1 - parm.vac_eff)
          (parm.xmit_school SchoolType.daycare) hb.vac.1 hb.vac.2
          (hb.school SchoolType.daycare).1 (hb.school SchoolType.daycare).2
        exact survival_mul_pow_bounds p _ _ hp h0 h1
      · obtain ⟨h0, h1⟩ := survival_base_bounds (1 - parm.vac_eff) _
          hb.vac.1 hb.vac.2 hx.1 hx.2
        exact survival_mul_pow_bounds p _ _ hp h0 h1
    · exact ⟨hp, le_refl p⟩

theorem fastInteractSchoolProb_bounds (parm : DiseaseParm) (hb : ParmBounded parm)
    (L : List AgentD) (x : AgentD) (p : ℚ) (hp : 0 ≤ p) :
    0 ≤ fastInteractSchoolProb parm L x p ∧ fastInteractSchoolProb parm L x p ≤ p := by
  unfold fastInteractSchoolProb
  obtain ⟨ha, hab⟩ := fastInteractSchoolPass_bounds true parm hb L x p hp
  obtain ⟨hc, hcb⟩ := fastInteractSchoolPass_bounds false parm hb L x _ ha
  exact ⟨hc, le_trans hcb hab⟩

set_option maxHeartbeats 1000000 in
/-- The progression kernel writes prob = 1 unconditionally at the start of
its per-agent body. -/
theorem updateAgentsStep_prob_reset (parm : DiseaseParm) (swc : ℚ) (a : Agent)
    (w : ℤ) (ds0 : DiseaseState) (r1 r2 r3 r4 r5 r6 : ℚ) :
    (updateAgentsStep parm swc a w ds0 r1 r2 r3 r4 r5 r6).ds.prob = 1 := by
  unfold updateAgentsStep
  dsimp only
  split_ifs <;> rfl

/-- The concrete parameter block parmW satisfies the transmission bounds. -/
theorem parmW_bounded : ParmBounded parmW := by
  constructor <;> first
    | exact ⟨by norm_num [parmW], by norm_num [parmW]⟩
    | (intro g; exact ⟨by norm_num [parmW], by norm_num [parmW]⟩)

/-- C4: assuming every xmit table entry and 1 - vac_eff lie in the unit
interval (and the kernels' scale of 1), the progression kernel resets prob
to 1 at the start of the day, and across the scheduler's kernel order
(work, school, work_nborhood, home, home_nborhood) the survival accumulator
stays in the unit interval and is monotonically non-increasing — each kernel
only multiplies it by unit-interval bases raised to non-negative infectious
counts. -/
theorem prob_unit_interval_day (parm : DiseaseParm) (hb : ParmBounded parm)
    (swc : ℚ) (a : Agent) (w : ℤ) (ds0 : DiseaseState) (r1 r2 r3 r4 r5 r6 : ℚ)
    (L1 L2 L3 L4 L5 : List AgentD) (x1 x2 x3 x4 x5 : AgentD) :
    (updateAgentsStep parm swc a w ds0 r1 r2 r3 r4 r5 r6).ds.prob = 1 ∧
    (0 ≤ (dayProbs parm L1 L2 L3 L4 L5 x1 x2 x3 x4 x5).1 ∧
      (dayProbs parm L1 L2 L3 L4 L5 x1 x2 x3 x4 x5).1 ≤ 1) ∧
    (0 ≤ (dayProbs parm L1 L2 L3 L4 L5 x1 x2 x3 x4 x5).2.1 ∧
      (dayProbs parm L1 L2 L3 L4 L5 x1 x2 x3 x4 x5).2.1 ≤
        (dayProbs parm L1 L2 L3 L4 L5 x1 x2 x3 x4 x5).1) ∧
    (0 ≤ (dayProbs parm L1 L2 L3 L4 L5 x1 x2 x3 x4 x5).2.2.1 ∧
      (dayProbs parm L1 L2 L3 L4 L5 x1 x2 x3 x4 x5).2.2.1 ≤
        (dayProbs parm L1 L2 L3 L4 L5 x1 x2 x3 x4 x5).2.1) ∧
    (0 ≤ (dayProbs parm L1 L2 L3 L4 L5 x1 x2 x3 x4 x5).2.2.2.1 ∧
      (dayProbs parm L1 L2 L3 L4 L5 x1 x2 x3 x4 x5).2.2.2.1 ≤
        (dayProbs parm L1 L2 L3 L4 L5 x1 x2 x3 x4 x5).2.2.1) ∧
    (0 ≤ (dayProbs parm L1 L2 L3 L4 L5 x1 x2 x3 x4 x5).2.2.2.2 ∧
      (dayProbs parm L1 L2 L3 L4 L5 x1 x2 x3 x4 x5).2.2.2.2 ≤
        (dayProbs parm L1 L2 L3 L4 L5 x1 x2 x3 x4 x5).2.2.2.1 ∧
      (dayProbs parm L1 L2 L3 L4 L5 x1 x2 x3 x4 x5).2.2.2.2 ≤ 1) := by
  obtain ⟨h10, h11⟩ := fastInteractWorkProb_bounds parm hb L1 x1 1 (by norm_num)
  obtain ⟨h20, h21⟩ := fastInteractSchoolProb_bounds parm hb L2 x2 _ h10
  obtain ⟨h30, h31⟩ := fastInteractWorkNborhoodProb_bounds parm hb L3 x3 _ h20
  obtain ⟨h40, h41⟩ := fastInteractHomeProb_bounds parm hb L4 x4 _ h30
  obtain ⟨h50, h51⟩ := fastInteractHomeNborhoodProb_bounds parm hb L5 x5 _ h40
  exact ⟨updateAgentsStep_prob_reset parm swc a w ds0 r1 r2 r3 r4 r5 r6,
    ⟨h10, h11⟩, ⟨h20, h21⟩, ⟨h30, h31⟩, ⟨h40, h41⟩, h50, h51,
    le_trans h51 (le_trans h41 (le_trans h31 (le_trans h21 h11)))⟩

/-- Witness for C4 at the concrete bounded parameter block and a singleton
susceptible agent with empty tiles. -/
theorem prob_unit_interval_day_witness :
    0 ≤ (dayProbs parmW [] [] [] [] [] agentDayW agentDayW agentDayW agentDayW
        agentDayW).2.2.2.2 ∧
    (dayProbs parmW [] [] [] [] [] agentDayW agentDayW agentDayW agentDayW
        agentDayW).2.2.2.2 ≤ 1 :=
  ⟨(prob_unit_interval_day parmW parmW_bounded 0 {} 0 {} 0 0 0 0 0 0 [] [] [] [] []
      agentDayW agentDayW agentDayW agentDayW agentDayW).2.2.2.2.2.1,
   (prob_unit_interval_day parmW parmW_bounded 0 {} 0 {} 0 0 0 0 0 0 [] [] [] [] []
      agentDayW agentDayW agentDayW agentDayW agentDayW).2.2.2.2.2.2.2⟩

/-- A treatment step for a dead agent (is_alive = 0) changes nothing. -/
theorem treatAgentsStep_dead (parm : DiseaseParm) (a : Agent) (w : ℤ) (flagIn : ℤ)
    (ds : DiseaseState) (r g : ℚ) :
    treatAgentsStep parm a w false flagIn ds r g = ⟨ds, w, false, flagIn, none⟩ := by
  unfold treatAgentsStep
  split_ifs <;> first | rfl | simp_all

/-- A treatment step for a non-hospitalized agent changes nothing. -/
theorem treatAgentsStep_notHosp (parm : DiseaseParm) (a : Agent) (w : ℤ)
    (alive : Bool) (flagIn : ℤ) (ds : DiseaseState) (r g : ℚ)
    (hnh : inHospital a = false) :
    treatAgentsStep parm a w alive flagIn ds r g = ⟨ds, w, alive, flagIn, none⟩ := by
  unfold treatAgentsStep
  simp [hnh]

/-- Case analysis of one treatment step: either it changes nothing, or the
agent was alive and hospitalized and the step killed it (status dead),
recovered it (status immune), or only counted the timer down. -/
theorem treatAgentsStep_cases (parm : DiseaseParm) (a : Agent) (w : ℤ) (alive : Bool)
    (flagIn : ℤ) (ds : DiseaseState) (r g : ℚ) :
    treatAgentsStep parm a w alive flagIn ds r g = ⟨ds, w, alive, flagIn, none⟩ ∨
    (inHospital a = true ∧ alive = true ∧
      (((treatAgentsStep parm a w alive flagIn ds r g).alive = false ∧
         (treatAgentsStep parm a w alive flagIn ds r g).ds.status = Status.dead) ∨
       ((treatAgentsStep parm a w alive flagIn ds r g).alive = true ∧
         (treatAgentsStep parm a w alive flagIn ds r g).ds.status = Status.immune) ∨
       ((treatAgentsStep parm a w alive flagIn ds r g).alive = true ∧
         (treatAgentsStep parm a w alive flagIn ds r g).ds.status = ds.status))) := by
  unfold treatAgentsStep
  split_ifs with h1 h2 h3 h4
  · exact Or.inl rfl
  · exact Or.inl rfl
  · exact Or.inl rfl
  · exact Or.inl rfl
  · dsimp only
    split_ifs with h5 h6
    · exact Or.inr ⟨by simpa using h1, by simpa using h4, Or.inl ⟨rfl, rfl⟩⟩
    · exact Or.inr ⟨by simpa using h1, by simpa using h4,
        Or.inr (Or.inl ⟨by simpa using h4, rfl⟩)⟩
    · exact Or.inr ⟨by simpa using h1, by simpa using h4,
        Or.inr (Or.inr ⟨by simpa using h4, rfl⟩)⟩

/-- A treatment step starting alive either keeps the agent alive with a
non-dead status (when the input status was non-dead), or kills it — and it
can only kill a hospitalized agent. -/
theorem treatAgentsStep_alive (parm : DiseaseParm) (a : Agent) (w : ℤ)
    (flagIn : ℤ) (ds : DiseaseState) (r g : ℚ) :
    ((treatAgentsStep parm a w true flagIn ds r g).alive = true →
      ds.status ≠ Status.dead →
      (treatAgentsStep parm a w true flagIn ds r g).ds.status ≠ Status.dead) ∧
    ((treatAgentsStep parm a w true flagIn ds r g).alive = false →
      inHospital a = true) := by
  rcases treatAgentsStep_cases parm a w true flagIn ds r g with heq | ⟨hh, _, hcases⟩
  · constructor
    · intro _ hnd
      rw [heq]
      exact hnd
    · intro hc
      rw [heq] at hc
      exact absurd hc (by norm_num)
  · constructor
    · intro halive hnd
      rcases hcases with ⟨hf, _⟩ | ⟨_, hst⟩ | ⟨_, hst⟩
      · rw [hf] at halive
        exact absurd halive (by norm_num)
      · rw [hst]
        norm_num [Status.immune, Status.dead]
      · rw [hst]
        exact hnd
    · intro _
      exact hh

/-- Folding the per-disease treatment passes over a dead agent is the
identity on every disease state. -/
theorem treatDiseases_dead (a : Agent) (w : ℤ) (flag : ℤ)
    (items : List (DiseaseParm × DiseaseState × ℚ × ℚ)) :
    treatDiseases a w false flag items =
      ⟨items.map (fun it => it.2.1), w, false, flag⟩ := by
  induction items generalizing w flag with
  | nil => rfl
  | cons it rest ih =>
    unfold treatDiseases
    rw [treatAgentsStep_dead]
    dsimp only
    rw [ih]
    rfl

/-- Folding the per-disease treatment passes over a non-hospitalized agent
is the identity on every disease state. -/
theorem treatDiseases_notHosp (a : Agent) (w : ℤ) (alive : Bool) (flag : ℤ)
    (items : List (DiseaseParm × DiseaseState × ℚ × ℚ))
    (hnh : inHospital a = false) :
    treatDiseases a w alive flag items =
      ⟨items.map (fun it => it.2.1), w, alive, flag⟩ := by
  induction items generalizing w alive flag with
  | nil => rfl
  | cons it rest ih =>
    unfold treatDiseases
    rw [treatAgentsStep_notHosp _ _ _ _ _ _ _ _ hnh]
    dsimp only
    rw [ih]
    rfl

/-- If the agent is still alive after the per-disease treatment fold and no
input state was dead, then no output state is dead. -/
theorem treatDiseases_alive (a : Agent) (w : ℤ) (flag : ℤ)
    (items : List (DiseaseParm × DiseaseState × ℚ × ℚ))
    (hnone : ∀ it ∈ items, it.2.1.status ≠ Status.dead)
    (halive : (treatDiseases a w true flag items).alive = true) :
    ∀ ds1 ∈ (treatDiseases a w true flag items).dss, ds1.status ≠ Status.dead := by
  induction items generalizing w flag with
  | nil =>
    intro ds1 hmem
    simp [treatDiseases] at hmem
  | cons it rest ih =>
    have hstep := treatAgentsStep_alive it.1 a w flag it.2.1 it.2.2.1 it.2.2.2
    unfold treatDiseases at halive ⊢
    dsimp only at halive ⊢
    cases halivestep :
        (treatAgentsStep it.1 a w true flag it.2.1 it.2.2.1 it.2.2.2).alive with
    | false =>
      rw [halivestep, treatDiseases_dead] at halive
      simp at halive
    | true =>
      rw [halivestep] at halive
      intro ds1 hmem
      rcases List.mem_cons.mp hmem with hhead | htail
      · rw [hhead]
        exact hstep.1 halivestep (hnone it (List.mem_cons_self it rest))
      · exact ih _ _ (fun x hx => hnone x (List.mem_cons_of_mem it hx)) halive ds1 htail

/-- The propagation pass does not change the alive cell. -/
theorem hospitalResolve_alive (a : Agent) (f : TreatFoldOut) :
    (hospitalResolve a f).alive = f.alive := by
  unfold hospitalResolve
  split_ifs <;> rfl

/-- The propagation pass leaves every disease state unchanged for an alive
agent. -/
theorem hospitalResolve_dss_alive (a : Agent) (f : TreatFoldOut)
    (hf : f.alive = true) :
    (hospitalResolve a f).dss = f.dss := by
  unfold hospitalResolve
  split_ifs with h1 h2 h3
  · rfl
  · simp [hf] at h2
  · rfl
  · rfl

/-- The propagation pass sets every disease status to dead for a dead
hospitalized agent. -/
theorem hospitalResolve_dss_dead (a : Agent) (f : TreatFoldOut)
    (hh : inHospital a = true) (hf : f.alive = false) :
    (hospitalResolve a f).dss =
      f.dss.map (fun ds => { ds with status := Status.dead }) := by
  unfold hospitalResolve
  rw [hh]
  rw [if_neg (by norm_num)]
  rw [if_pos hf]

/-- The propagation pass skips non-hospitalized agents entirely. -/
theorem hospitalResolve_notHosp (a : Agent) (f : TreatFoldOut)
    (hh : inHospital a = false) :
    hospitalResolve a f = ⟨f.dss, a.hosp_i, a.hosp_j, f.withdrawn, f.alive, f.flag⟩ := by
  unfold hospitalResolve
  rw [hh]
  rw [if_pos (by norm_num)]

/-- C8: after the hospital treatment pipeline, if any disease's status is
dead then every disease's status is dead, assuming the code's input
invariant (all statuses dead or none); in particular an agent killed by a
hospital outcome draw (alive cell 0 while hospitalized) has the dead status
propagated to every disease in the same step. -/
theorem hospital_death_propagation (a : Agent) (w : ℤ)
    (items : List (DiseaseParm × DiseaseState × ℚ × ℚ))
    (hinv : (∀ it ∈ items, it.2.1.status = Status.dead) ∨
      (∀ it ∈ items, it.2.1.status ≠ Status.dead)) :
    ((∃ ds1 ∈ (treatAgentsAgent a w items).dss, ds1.status = Status.dead) →
      ∀ ds2 ∈ (treatAgentsAgent a w items).dss, ds2.status = Status.dead) ∧
    ((treatAgentsAgent a w items).alive = false → inHospital a = true →
      ∀ ds2 ∈ (treatAgentsAgent a w items).dss, ds2.status = Status.dead) := by
  cases items with
  | nil =>
    have h : (treatAgentsAgent a w []).dss = [] := by
      unfold treatAgentsAgent treatDiseases hospitalResolve
      dsimp only
      split_ifs <;> rfl
    constructor
    · intro _ ds2 hmem
      rw [h] at hmem
      simp at hmem
    · intro _ _ ds2 hmem
      rw [h] at hmem
      simp at hmem
  | cons it rest =>
    have hagent : treatAgentsAgent a w (it :: rest) =
        hospitalResolve a (treatDiseases a w
          (decide (it.2.1.status ≠ Status.dead)) 0 (it :: rest)) := rfl
    rcases hinv with hall | hnone
    · have halive0 : decide (it.2.1.status ≠ Status.dead) = false := by
        simp [hall it (List.mem_cons_self it rest)]
      rw [hagent, halive0, treatDiseases_dead]
      by_cases hh : inHospital a = true
      · have hdss := hospitalResolve_dss_dead a
          ⟨List.map (fun it => it.2.1) (it :: rest), w, false, 0⟩ hh rfl
        rw [hdss]
        constructor
        · intro _ ds2 hmem
          simp only [List.mem_map] at hmem
          obtain ⟨ds0, _, hset⟩ := hmem
          rw [← hset]
        · intro _ _ ds2 hmem
          simp only [List.mem_map] at hmem
          obtain ⟨ds0, _, hset⟩ := hmem
          rw [← hset]
      · have hh2 : inHospital a = false := by
          simpa using hh
        rw [hospitalResolve_notHosp a _ hh2]
        constructor
        · intro _ ds2 hmem
          simp only [List.mem_map] at hmem
          obtain ⟨it2, hmem2, hds⟩ := hmem
          rw [← hds]
          exact hall it2 hmem2
        · intro _ hctr
          rw [hh2] at hctr
          exact absurd hctr (by norm_num)
    · have halive0 : decide (it.2.1.status ≠ Status.dead) = true := by
        simp [hnone it (List.mem_cons_self it rest)]
      rw [hagent, halive0]
      by_cases hh : inHospital a = true
      · cases hf : (treatDiseases a w true 0 (it :: rest)).alive with
        | true =>
          have hnodead := treatDiseases_alive a w 0 (it :: rest) hnone hf
          have hdss := hospitalResolve_dss_alive a _ hf
          rw [hdss]
          constructor
          · intro hex
            obtain ⟨ds1, hmem1, hdead1⟩ := hex
            exact absurd hdead1 (hnodead ds1 hmem1)
          · intro hctr
            rw [hospitalResolve_alive, hf] at hctr
            exact absurd hctr (by norm_num)
        | false =>
          have hdss := hospitalResolve_dss_dead a _ hh hf
          rw [hdss]
          constructor
          · intro _ ds2 hmem
            simp only [List.mem_map] at hmem
            obtain ⟨ds0, _, hset⟩ := hmem
            rw [← hset]
          · intro _ _ ds2 hmem
            simp only [List.mem_map] at hmem
            obtain ⟨ds0, _, hset⟩ := hmem
            rw [← hset]
      · have hh2 : inHospital a = false := by
          simpa using hh
        rw [treatDiseases_notHosp a w true 0 (it :: rest) hh2]
        rw [hospitalResolve_notHosp a _ hh2]
        constructor
        · intro hex
          obtain ⟨ds1, hmem1, hdead1⟩ := hex
          simp only [List.mem_map] at hmem1
          obtain ⟨it2, hmem2, hds⟩ := hmem1
          rw [← hds] at hdead1
          exact absurd hdead1 (hnone it2 hmem2)
        · intro _ hctr
          rw [hh2] at hctr
          exact absurd hctr (by norm_num)

/-- Witness for C8 at a one-disease agent dying at the end of the hospital
phase: the status list after the pipeline is all dead. -/
theorem hospital_death_propagation_witness :
    (treatAgentsAgent agentHosp 0 itemsDeath).dss.all
      (fun ds2 => decide (ds2.status = Status.dead)) = true := by
  have h := (hospital_death_propagation agentHosp 0 itemsDeath
      (Or.inr (by
        intro it hmem
        simp [itemsDeath] at hmem
        rw [hmem]
        norm_num [dsHospEnd, Status.dead]))).2
    (by norm_num [treatAgentsAgent, treatDiseases, treatAgentsStep, treatFlag,
      hospitalResolve, itemsDeath, parmW, agentHosp, dsHospEnd, inHospital,
      DiseaseStats.hospitalization, Status.dead])
    (by rfl)
  rw [List.all_eq_true]
  intro ds2 hmem
  simpa using h ds2 hmem

/-! ### C10: getTotals partitions the population -/

/-- Per-agent partition facts of the getTotals body: exactly one of the five
status slots is set, the four infection sub-slots sum to the infected slot,
the three symptom slots require an infectious agent, and an infected agent at
the exposed boundary (disease_counter = latent_period) is tallied as exposed. -/
lemma getTotalsContrib_spec (ds : DiseaseState) (c : StatusCounts)
    (hc : getTotalsContrib ds = some c) :
    c.cNever + c.cInfected + c.cImmune + c.cSusceptible + c.cDead = 1 ∧
    c.cExposed + c.cAsymp + c.cPresymp + c.cSymp = c.cInfected ∧
    ((c.cAsymp = 1 ∨ c.cPresymp = 1 ∨ c.cSymp = 1) →
      ds.latent_period < ds.disease_counter) ∧
    (ds.status = Status.infected → ds.disease_counter = ds.latent_period →
      c.cExposed = 1) := by
  unfold getTotalsContrib at hc
  by_cases hrange : 0 ≤ ds.status ∧ ds.status ≤ 4
  · rw [if_pos hrange] at hc
    dsimp only at hc
    obtain ⟨h0, h4⟩ := hrange
    by_cases hinf : ds.status = Status.infected
    · rw [if_pos hinf] at hc
      cases hnib : notInfectiousButInfected ds with
      | true =>
        rw [hnib] at hc
        simp only [if_true, Option.some.injEq] at hc
        subst hc
        dsimp only
        refine ⟨?_, ?_, ?_, fun _ _ => rfl⟩
        · simp only [Status.never, Status.infected, Status.immune,
            Status.susceptible, Status.dead] at hinf ⊢
          split_ifs <;> omega
        · simp only [Status.never, Status.infected, Status.immune,
            Status.susceptible, Status.dead] at hinf ⊢
          split_ifs <;> omega
        · intro h
          simp at h
      | false =>
        rw [hnib] at hc
        simp only [Bool.false_eq_true, if_false] at hc
        have hlt : ds.latent_period < ds.disease_counter := by
          have h := hnib
          simp [notInfectiousButInfected, hinf] at h
          exact h
        by_cases ha : ds.symptomatic = SymptomStatus.asymptomatic
        · rw [if_pos ha] at hc
          simp only [Option.some.injEq] at hc
          subst hc
          dsimp only
          refine ⟨?_, ?_, fun _ => hlt, ?_⟩
          · simp only [Status.never, Status.infected, Status.immune,
              Status.susceptible, Status.dead] at hinf ⊢
            split_ifs <;> omega
          · simp only [Status.never, Status.infected, Status.immune,
              Status.susceptible, Status.dead] at hinf ⊢
            split_ifs <;> omega
          · intro _ heq
            exact absurd heq (ne_of_gt hlt)
        · rw [if_neg ha] at hc
          by_cases hp : ds.symptomatic = SymptomStatus.presymptomatic
          · rw [if_pos hp] at hc
            simp only [Option.some.injEq] at hc
            subst hc
            dsimp only
            refine ⟨?_, ?_, fun _ => hlt, ?_⟩
            · simp only [Status.never, Status.infected, Status.immune,
                Status.susceptible, Status.dead] at hinf ⊢
              split_ifs <;> omega
            · simp only [Status.never, Status.infected, Status.immune,
                Status.susceptible, Status.dead] at hinf ⊢
              split_ifs <;> omega
            · intro _ heq
              exact absurd heq (ne_of_gt hlt)
          · rw [if_neg hp] at hc
            by_cases hs : ds.symptomatic = SymptomStatus.symptomatic
            · rw [if_pos hs] at hc
              simp only [Option.some.injEq] at hc
              subst hc
              dsimp only
              refine ⟨?_, ?_, fun _ => hlt, ?_⟩
              · simp only [Status.never, Status.infected, Status.immune,
                  Status.susceptible, Status.dead] at hinf ⊢
                split_ifs <;> omega
              · simp only [Status.never, Status.infected, Status.immune,
                  Status.susceptible, Status.dead] at hinf ⊢
                split_ifs <;> omega
              · intro _ heq
                exact absurd heq (ne_of_gt hlt)
            · rw [if_neg hs] at hc
              exact absurd hc (by simp)
    · rw [if_neg hinf] at hc
      simp only [Option.some.injEq] at hc
      subst hc
      dsimp only
      refine ⟨?_, ?_, ?_, fun habs _ => absurd habs hinf⟩
      · simp only [Status.never, Status.infected, Status.immune,
          Status.susceptible, Status.dead] at hinf ⊢
        split_ifs <;> omega
      · simp only [Status.never, Status.infected, Status.immune,
          Status.susceptible, Status.dead] at hinf ⊢
        split_ifs <;> omega
      · intro h
        simp at h
  · rw [if_neg hrange] at hc
    exact absurd hc (by simp)

/-- The infection sub-counters of getTotals sum to its infected counter over
any population. -/
lemma getTotals_symptom_sum (L : List DiseaseState) :
    ∀ t : StatusCounts, getTotals L = some t →
      t.cExposed + t.cAsymp + t.cPresymp + t.cSymp = t.cInfected := by
  induction L with
  | nil =>
    intro t ht
    simp only [getTotals, Option.some.injEq] at ht
    subst ht
    rfl
  | cons ds rest ih =>
    intro t ht
    unfold getTotals at ht
    cases hc : getTotalsContrib ds with
    | none =>
      rw [hc] at ht
      exact absurd ht (by simp)
    | some c =>
      cases hr : getTotals rest with
      | none =>
        rw [hc, hr] at ht
        exact absurd ht (by simp)
      | some t0 =>
        rw [hc, hr] at ht
        simp only [Option.some_bind, Option.map_some', Option.some.injEq] at ht
        subst ht
        have h1 := (getTotalsContrib_spec ds c hc).2.1
        have h2 := ih t0 hr
        dsimp only [addCounts]
        omega

/-- C10: the getTotals reduction counts every in-range agent in exactly one of
the five status slots (never, infected, immune, susceptible, dead) and every
infected agent in exactly one of the four infection sub-slots (exposed,
asymptomatic, presymptomatic, symptomatic), so over any population the four
sub-counters sum to the infected counter; moreover the three symptom slots are
only set for infectious agents (disease_counter strictly above latent_period),
and an infected agent whose disease_counter equals its latent_period is
counted as exposed. -/
theorem getTotals_partition :
    (∀ (ds : DiseaseState) (c : StatusCounts), getTotalsContrib ds = some c →
        c.cNever + c.cInfected + c.cImmune + c.cSusceptible + c.cDead = 1 ∧
        c.cExposed + c.cAsymp + c.cPresymp + c.cSymp = c.cInfected ∧
        ((c.cAsymp = 1 ∨ c.cPresymp = 1 ∨ c.cSymp = 1) →
          ds.latent_period < ds.disease_counter) ∧
        (ds.status = Status.infected → ds.disease_counter = ds.latent_period →
          c.cExposed = 1)) ∧
    (∀ (L : List DiseaseState) (t : StatusCounts), getTotals L = some t →
        t.cExposed + t.cAsymp + t.cPresymp + t.cSymp = t.cInfected) :=
  ⟨getTotalsContrib_spec, getTotals_symptom_sum⟩

/-- Infected agent exactly at the exposed boundary: disease_counter equals
latent_period. -/
def dsExpW : DiseaseState :=
  { status := Status.infected, symptomatic := SymptomStatus.presymptomatic,
    treatment_timer := 0, disease_counter := 3, prob := 1,
    latent_period := 3, infectious_period := 5, incubation_period := 4 }

/-- Expected getTotals contribution of dsExpW: infected and exposed. -/
def cExpW : StatusCounts := ⟨0, 1, 0, 0, 0, 1, 0, 0, 0⟩

/-- Witness for C10 at the boundary agent dsExpW: the contribution is defined,
it tallies the agent as exposed (not under its presymptomatic flag), and the
five status slots sum to one. -/
theorem getTotals_partition_witness :
    getTotalsContrib dsExpW = some cExpW ∧ cExpW.cExposed = 1 ∧
      cExpW.cNever + cExpW.cInfected + cExpW.cImmune + cExpW.cSusceptible +
        cExpW.cDead = 1 := by
  have hc : getTotalsContrib dsExpW = some cExpW := by
    norm_num [getTotalsContrib, dsExpW, cExpW, notInfectiousButInfected,
      Status.infected, Status.never, Status.immune, Status.susceptible,
      Status.dead, SymptomStatus.presymptomatic]
  exact ⟨hc, (getTotals_partition.1 dsExpW cExpW hc).2.2.2 rfl rfl,
    (getTotals_partition.1 dsExpW cExpW hc).1⟩
